import Mathlib

/-!
# CZookeeper: the Ruby binding of the ZooKeeper C client (`zookeeper_ruby.c`)

A shallow embedding of the extension and the properties proved about it.

* Ruby values are the inductive type `VALUE`; an exception raised with `rb_raise`
  (which never returns to its caller) is the `error` case of `Except RbError`.
* The ZooKeeper C client is not part of the extension.  Its entry points are the
  fields of `ZooClient σ`, functions on a state `σ` that stands for everything behind
  the handle; its result codes are the fields of `ZooCodes`.
* A method runs in `Rb σ`: it threads the `World` (the instance variable `@data`, the
  state behind the handle, and the list of client calls made so far) and ends with a
  value or with one raised exception.
-/

namespace ZookeeperRuby

/-! ## Bytes and C strings -/

/-- Contents of a Ruby string, or of a `char` buffer. -/
abbrev Bytes := List UInt8

/-- The C string that starts at a buffer: the bytes before the first NUL. -/
def cstr (buf : Bytes) : Bytes := buf.takeWhile (fun b => b != 0)

/-! ## printf `%d` -/

/-- Decimal digits of `n`, least significant first (`fuel` bounds the recursion;
`n + 1` is always enough). -/
def decDigits : Nat → Nat → List Nat
  | 0, _ => []
  | fuel + 1, n => if n < 10 then [n] else n % 10 :: decDigits fuel (n / 10)

/-- Decimal rendering of a natural number, most significant digit first. -/
def fmt_u (n : Nat) : List Char := ((decDigits (n + 1) n).reverse).map Nat.digitChar

/-- Rendering of a C `int` by the conversion `%d`. -/
def fmt_d (n : Int) : String :=
  if n < 0 then String.mk ('-' :: fmt_u (-n).toNat) else String.mk (fmt_u n.toNat)

/-- Value of a decimal digit character. -/
def digitVal (c : Char) : Nat := c.toNat - 48

/-- Reads back a rendering made by `fmt_d`. -/
def scan_d (s : List Char) : Int :=
  if s.head? = some '-' then
    -((Nat.ofDigits 10 ((s.tail.map digitVal).reverse) : Nat) : Int)
  else ((Nat.ofDigits 10 ((s.map digitVal).reverse) : Nat) : Int)

/-! ## Ruby runtime -/

/-- Classes the extension refers to.  `Zookeeper`, `eNoNode` and `eBadVersion` are its
three static variables, the others come from `ruby.h`. -/
inductive RbClass
  | rb_cObject
  | rb_eRuntimeError
  | rb_eTypeError
  | rb_eArgError
  | rb_eRangeError
  | Zookeeper
  | eNoNode
  | eBadVersion
  deriving DecidableEq, Repr

/-- A raised exception: its class and its formatted message. -/
structure RbError where
  klass : RbClass
  mesg : String
  deriving DecidableEq, Repr

/-- Ruby values that reach or leave the extension. -/
inductive VALUE
  | Qnil
  | fixnum (n : Int)
  | str (bytes : Bytes)
  | ary (elems : List VALUE)
  | object
  deriving Repr

/-- Type tags tested by `Check_Type`. -/
inductive ruby_value_type
  | T_NIL
  | T_FIXNUM
  | T_STRING
  | T_ARRAY
  | T_OBJECT
  deriving DecidableEq, Repr

/-- Type tag of a value. -/
def VALUE.TYPE : VALUE → ruby_value_type
  | .Qnil => .T_NIL
  | .fixnum _ => .T_FIXNUM
  | .str _ => .T_STRING
  | .ary _ => .T_ARRAY
  | .object => .T_OBJECT

/-- The `rb_raise(klass, fmt, ...)` call: raises, and never returns to its caller. -/
def rb_raise {α : Type} (klass : RbClass) (mesg : String) : Except RbError α :=
  .error ⟨klass, mesg⟩

/-- The `Check_Type(x, t)` guard: a `TypeError` unless `x` has the tag `t`. -/
def Check_Type (x : VALUE) (t : ruby_value_type) : Except RbError Unit :=
  if x.TYPE = t then pure () else rb_raise .rb_eTypeError "wrong argument type"

/-- The byte pointer `RSTRING(x)->ptr`, as the bytes it points to. -/
def RSTRING_ptr : VALUE → Bytes
  | .str b => b
  | _ => []

/-- The length `RSTRING(x)->len`. -/
def RSTRING_len (x : VALUE) : Int := ((RSTRING_ptr x).length : Int)

/-- Least value of a C `int`. -/
def INT_MIN : Int := -2147483648

/-- Greatest value of a C `int`. -/
def INT_MAX : Int := 2147483647

/-- The `FIX2INT` conversion where `int` is narrower than `long` (`rb_fix2int`): the
integer of a Fixnum when it fits a C `int`, a `RangeError` otherwise.  It is only
applied after `Check_Type(x, T_FIXNUM)`. -/
def FIX2INT : VALUE → Except RbError Int
  | .fixnum n =>
    if n < INT_MIN then
      rb_raise .rb_eRangeError ("integer " ++ fmt_d n ++ " too small to convert to `int'")
    else if INT_MAX < n then
      rb_raise .rb_eRangeError ("integer " ++ fmt_d n ++ " too big to convert to `int'")
    else pure n
  | _ => pure 0

/-- The `INT2FIX` conversion of a C `int`. -/
def INT2FIX (i : Int) : VALUE := .fixnum i

/-- The `rb_str_new2(ptr)` call: a Ruby string holding the C string at `ptr`. -/
def rb_str_new2 (ptr : Bytes) : VALUE := .str (cstr ptr)

/-- The `rb_str_new(ptr, len)` call: a Ruby string of the `len` bytes at `ptr`; the
runtime raises `ArgumentError` on a negative length. -/
def rb_str_new (ptr : Bytes) (len : Int) : Except RbError VALUE :=
  if len < 0 then rb_raise .rb_eArgError "negative string size (or size too big)"
  else pure (.str (ptr.take len.toNat))

/-- The `rb_ary_new()` call. -/
def rb_ary_new : VALUE := .ary []

/-- The `rb_ary_push(ary, item)` call. -/
def rb_ary_push : VALUE → VALUE → VALUE
  | .ary xs, x => .ary (xs ++ [x])
  | v, _ => v

/-! ## The ZooKeeper C client, as seen from the extension -/

/-- Result codes of `zookeeper.h` that `check_errors` names.  The header is not part
of the extension, so the values are a parameter. -/
structure ZooCodes where
  ZOK : Int
  ZBADARGUMENTS : Int
  ZMARSHALLINGERROR : Int
  ZOPERATIONTIMEOUT : Int
  ZCONNECTIONLOSS : Int
  ZSYSTEMERROR : Int
  ZNONODE : Int
  ZNOAUTH : Int
  ZBADVERSION : Int
  ZINVALIDSTATE : Int
  ZNODEEXISTS : Int
  ZNOCHILDRENFOREPHEMERALS : Int
  ZINVALIDACL : Int
  deriving DecidableEq, Repr

/-- The case labels of the `switch` in `check_errors`, in source order. -/
def ZooCodes.labels (Z : ZooCodes) : List Int :=
  [Z.ZOK, Z.ZBADARGUMENTS, Z.ZMARSHALLINGERROR, Z.ZOPERATIONTIMEOUT, Z.ZCONNECTIONLOSS,
   Z.ZSYSTEMERROR, Z.ZNONODE, Z.ZNOAUTH, Z.ZBADVERSION, Z.ZINVALIDSTATE, Z.ZNODEEXISTS,
   Z.ZNOCHILDRENFOREPHEMERALS, Z.ZINVALIDACL]

/-- Case labels of one `switch` are pairwise different (C rejects a duplicate). -/
def ZooCodes.Distinct (Z : ZooCodes) : Prop := Z.labels.Nodup

instance (Z : ZooCodes) : Decidable Z.Distinct :=
  inferInstanceAs (Decidable (List.Nodup _))

/-- The values the ZooKeeper C client header gives to the thirteen codes. -/
def zookeeper_h : ZooCodes where
  ZOK := 0
  ZSYSTEMERROR := -1
  ZCONNECTIONLOSS := -4
  ZMARSHALLINGERROR := -5
  ZOPERATIONTIMEOUT := -7
  ZBADARGUMENTS := -8
  ZINVALIDSTATE := -9
  ZNONODE := -101
  ZNOAUTH := -102
  ZBADVERSION := -103
  ZNOCHILDRENFOREPHEMERALS := -108
  ZNODEEXISTS := -110
  ZINVALIDACL := -114

/-- Log levels of the client library. -/
inductive ZooLogLevel
  | LOG_LEVEL_ERROR
  | LOG_LEVEL_WARN
  | LOG_LEVEL_INFO
  | LOG_LEVEL_DEBUG
  deriving DecidableEq, Repr

/-- Predefined ACL vectors of the client library. -/
inductive ACL_vector
  | OPEN_ACL_UNSAFE
  | READ_ACL_UNSAFE
  | CREATOR_ALL_ACL
  deriving DecidableEq, Repr

/-- A non-NULL `zhandle_t *`. -/
abbrev zhandle_t := Nat

/-- Session identity handed to `zookeeper_init`. -/
structure clientid_t where
  client_id : Int
  passwd : Bytes
  deriving DecidableEq, Repr

/-- The `struct zk_rb_data` record wrapped by `@data`. -/
structure zk_rb_data where
  zh : zhandle_t
  myid : clientid_t
  deriving DecidableEq, Repr

/-- The `struct String_vector` record: `count` and the array `data` of C strings. -/
structure String_vector where
  count : Int
  data : List Bytes
  deriving DecidableEq, Repr

/-- The `struct Stat` record; `version` is the one field the extension reads. -/
structure Stat where
  version : Int
  deriving DecidableEq, Repr

/-- One call into the client library, with the arguments the extension passed. -/
inductive Call
  | zoo_set_debug_level (level : ZooLogLevel)
  | zoo_deterministic_conn_order (yesOrNo : Int)
  | zookeeper_init (host : Bytes) (recv_timeout : Int) (clientid : clientid_t) (flags : Int)
  | zoo_get_children (zh : zhandle_t) (path : Bytes) (watch : Int)
  | zoo_create (zh : zhandle_t) (path : Bytes) (value : Bytes) (valuelen : Int)
      (acl : ACL_vector) (flags : Int) (max_realpath_len : Int)
  | zoo_get (zh : zhandle_t) (path : Bytes) (watch : Int) (buffer_len : Int)
  | zoo_set (zh : zhandle_t) (path : Bytes) (buffer : Bytes) (buflen : Int) (version : Int)
  deriving DecidableEq, Repr

/-- What `zookeeper_init` leaves: the handle (`none` for NULL) and `errno`. -/
structure InitReply (σ : Type) where
  zoo : σ
  zh : Option zhandle_t
  errno : Int

/-- What `zoo_get_children` leaves: the result code and the vector it filled. -/
structure ChildrenReply (σ : Type) where
  zoo : σ
  rc : Int
  strings : String_vector

/-- What `zoo_create` leaves: the result code and the `realpath` buffer. -/
structure CreateReply (σ : Type) where
  zoo : σ
  rc : Int
  realpath : Bytes

/-- What `zoo_get` leaves: the result code, the data buffer, the updated length and
the stat record. -/
structure GetReply (σ : Type) where
  zoo : σ
  rc : Int
  buffer : Bytes
  buffer_len : Int
  stat : Stat

/-- What `zoo_set` leaves: the result code. -/
structure SetReply (σ : Type) where
  zoo : σ
  rc : Int

/-- The client library entry points the extension calls, as functions of the state
`σ` behind the handle.  Arguments are in the order of the C prototypes (the watcher
and context arguments of `zookeeper_init`, always NULL and 0, are left out). -/
structure ZooClient (σ : Type) where
  zoo_set_debug_level : σ → ZooLogLevel → σ
  zoo_deterministic_conn_order : σ → Int → σ
  zookeeper_init : σ → Bytes → Int → clientid_t → Int → InitReply σ
  zoo_get_children : σ → zhandle_t → Bytes → Int → ChildrenReply σ
  zoo_create : σ → zhandle_t → Bytes → Bytes → Int → ACL_vector → Int → Int → CreateReply σ
  zoo_get : σ → zhandle_t → Bytes → Int → Int → GetReply σ
  zoo_set : σ → zhandle_t → Bytes → Bytes → Int → Int → SetReply σ

/-! ## Running a method -/

/-- State a method runs against: the instance variable `@data` of `self`, the state
behind the client handle, and the client calls made so far (oldest first). -/
structure World (σ : Type) where
  data : Option zk_rb_data
  zoo : σ
  calls : List Call

/-- How a run ends: the world it leaves and either a value or the exception raised. -/
structure Outcome (σ α : Type) where
  world : World σ
  result : Except RbError α

/-- A computation of the extension. -/
def Rb (σ α : Type) : Type := World σ → Outcome σ α

/-- Sequencing: an exception raised by the first part skips the second. -/
def Rb.bind {σ α β : Type} (m : Rb σ α) (f : α → Rb σ β) : Rb σ β := fun w =>
  match (m w).result with
  | .ok a => f a (m w).world
  | .error e => ⟨(m w).world, .error e⟩

/-- Normal return. -/
def Rb.pure {σ α : Type} (a : α) : Rb σ α := fun w => ⟨w, .ok a⟩

/-- Runs a runtime call that may raise and does not touch the world. -/
def Rb.ofExcept {σ α : Type} (x : Except RbError α) : Rb σ α := fun w => ⟨w, x⟩

instance {σ : Type} : Monad (Rb σ) where
  pure := Rb.pure
  bind := Rb.bind

instance {σ : Type} : MonadLift (Except RbError) (Rb σ) where
  monadLift := Rb.ofExcept

/-- The `rb_iv_get(self, "@data")` call. -/
def rb_iv_get_data {σ : Type} : Rb σ (Option zk_rb_data) := fun w => ⟨w, .ok w.data⟩

/-- The `rb_iv_set(self, "@data", data)` call. -/
def rb_iv_set_data {σ : Type} (zk : zk_rb_data) : Rb σ Unit := fun w =>
  ⟨{ w with data := some zk }, .ok ()⟩

/-- The `Data_Get_Struct` unwrapping: a `TypeError` when `@data` is nil. -/
def Data_Get_Struct (obj : Option zk_rb_data) : Except RbError zk_rb_data :=
  match obj with
  | some zk => pure zk
  | none => rb_raise .rb_eTypeError "wrong argument type nil (expected Data)"

/-- The `Data_Make_Struct` allocation: a zeroed `zk_rb_data`, of which the extension
uses `myid` before the handle is known. -/
def Data_Make_Struct_myid : clientid_t := ⟨0, List.replicate 16 0⟩

/-! ## Client calls, logged -/

/-- Calls `zoo_set_debug_level(level)`. -/
def zoo_set_debug_level {σ : Type} (C : ZooClient σ) (level : ZooLogLevel) : Rb σ Unit :=
  fun w =>
    ⟨{ w with zoo := C.zoo_set_debug_level w.zoo level,
              calls := w.calls ++ [Call.zoo_set_debug_level level] }, .ok ()⟩

/-- Calls `zoo_deterministic_conn_order(yesOrNo)`. -/
def zoo_deterministic_conn_order {σ : Type} (C : ZooClient σ) (yesOrNo : Int) : Rb σ Unit :=
  fun w =>
    ⟨{ w with zoo := C.zoo_deterministic_conn_order w.zoo yesOrNo,
              calls := w.calls ++ [Call.zoo_deterministic_conn_order yesOrNo] }, .ok ()⟩

/-- Calls `zookeeper_init(host, NULL, recv_timeout, clientid, 0, flags)`. -/
def zookeeper_init {σ : Type} (C : ZooClient σ) (host : Bytes) (recv_timeout : Int)
    (clientid : clientid_t) (flags : Int) : Rb σ (InitReply σ) := fun w =>
  let r := C.zookeeper_init w.zoo host recv_timeout clientid flags
  ⟨{ w with zoo := r.zoo,
            calls := w.calls ++ [Call.zookeeper_init host recv_timeout clientid flags] }, .ok r⟩

/-- Calls `zoo_get_children(zh, path, watch, &strings)`. -/
def zoo_get_children {σ : Type} (C : ZooClient σ) (zh : zhandle_t) (path : Bytes)
    (watch : Int) : Rb σ (ChildrenReply σ) := fun w =>
  let r := C.zoo_get_children w.zoo zh path watch
  ⟨{ w with zoo := r.zoo, calls := w.calls ++ [Call.zoo_get_children zh path watch] }, .ok r⟩

/-- Calls `zoo_create(zh, path, value, valuelen, acl, flags, realpath, max_realpath_len)`. -/
def zoo_create {σ : Type} (C : ZooClient σ) (zh : zhandle_t) (path value : Bytes)
    (valuelen : Int) (acl : ACL_vector) (flags : Int) (max_realpath_len : Int) :
    Rb σ (CreateReply σ) := fun w =>
  let r := C.zoo_create w.zoo zh path value valuelen acl flags max_realpath_len
  ⟨{ w with zoo := r.zoo,
            calls := w.calls ++
              [Call.zoo_create zh path value valuelen acl flags max_realpath_len] }, .ok r⟩

/-- Calls `zoo_get(zh, path, watch, buffer, &buffer_len, &stat)`. -/
def zoo_get {σ : Type} (C : ZooClient σ) (zh : zhandle_t) (path : Bytes) (watch : Int)
    (buffer_len : Int) : Rb σ (GetReply σ) := fun w =>
  let r := C.zoo_get w.zoo zh path watch buffer_len
  ⟨{ w with zoo := r.zoo, calls := w.calls ++ [Call.zoo_get zh path watch buffer_len] }, .ok r⟩

/-- Calls `zoo_set(zh, path, buffer, buflen, version)`. -/
def zoo_set {σ : Type} (C : ZooClient σ) (zh : zhandle_t) (path buffer : Bytes)
    (buflen : Int) (version : Int) : Rb σ (SetReply σ) := fun w =>
  let r := C.zoo_set w.zoo zh path buffer buflen version
  ⟨{ w with zoo := r.zoo, calls := w.calls ++ [Call.zoo_set zh path buffer buflen version] },
   .ok r⟩

/-! ## The extension -/

/-- The function `check_errors`: returns on `ZOK`, raises on every other code. -/
def check_errors (Z : ZooCodes) (rc : Int) : Except RbError Unit :=
  if rc = Z.ZOK then pure ()
  else if rc = Z.ZBADARGUMENTS then
    rb_raise .rb_eRuntimeError "invalid input parameters"
  else if rc = Z.ZMARSHALLINGERROR then
    rb_raise .rb_eRuntimeError "failed to marshall a request; possibly out of memory"
  else if rc = Z.ZOPERATIONTIMEOUT then
    rb_raise .rb_eRuntimeError "failed to flush the buffers within the specified timeout"
  else if rc = Z.ZCONNECTIONLOSS then
    rb_raise .rb_eRuntimeError
      "a network error occured while attempting to send request to server"
  else if rc = Z.ZSYSTEMERROR then
    rb_raise .rb_eRuntimeError
      "a system (OS) error occured; it's worth checking errno to get details"
  else if rc = Z.ZNONODE then rb_raise .eNoNode "the node does not exist"
  else if rc = Z.ZNOAUTH then rb_raise .rb_eRuntimeError "the client does not have permission"
  else if rc = Z.ZBADVERSION then
    rb_raise .eBadVersion "expected version does not match actual version"
  else if rc = Z.ZINVALIDSTATE then
    rb_raise .rb_eRuntimeError
      "zhandle state is either SESSION_EXPIRED_STATE or AUTH_FAILED_STATE"
  else if rc = Z.ZNODEEXISTS then rb_raise .rb_eRuntimeError "the node already exists"
  else if rc = Z.ZNOCHILDRENFOREPHEMERALS then
    rb_raise .rb_eRuntimeError "cannot create children of ephemeral nodes"
  else if rc = Z.ZINVALIDACL then rb_raise .rb_eRuntimeError "invalid ACL specified"
  else rb_raise .rb_eRuntimeError ("unknown error returned from zookeeper: " ++ fmt_d rc)

/-- The method `initialize`. -/
def method_initialize {σ : Type} (C : ZooClient σ) (hostPort : VALUE) : Rb σ VALUE := do
  Check_Type hostPort .T_STRING
  let myid := Data_Make_Struct_myid
  zoo_set_debug_level C .LOG_LEVEL_DEBUG
  zoo_deterministic_conn_order C 1
  let r ← zookeeper_init C (RSTRING_ptr hostPort) 10000 myid 0
  match r.zh with
  | none =>
    rb_raise (α := VALUE) .rb_eRuntimeError ("error connecting to zookeeper: " ++ fmt_d r.errno)
  | some zh =>
    rb_iv_set_data ⟨zh, myid⟩
    return .Qnil

/-- The method `ls`.  The `for` loop visits `i = 0, ..., count - 1` in order and pushes
the C string at `strings.data[i]`. -/
def method_ls {σ : Type} (C : ZooClient σ) (Z : ZooCodes) (path : VALUE) : Rb σ VALUE := do
  Check_Type path .T_STRING
  let zk ← Data_Get_Struct (← rb_iv_get_data)
  let r ← zoo_get_children C zk.zh (RSTRING_ptr path) 0
  check_errors Z r.rc
  let strings := r.strings
  let output := (List.range strings.count.toNat).foldl
    (fun output i => rb_ary_push output (rb_str_new2 (strings.data.getD i []))) rb_ary_new
  return output

/-- The method `create`.  The buffer `realpath` is `char realpath[10240]`, whose size is
handed to the client as `max_realpath_len`; `FIX2INT(flags)` is evaluated among the
arguments, before the call. -/
def method_create {σ : Type} (C : ZooClient σ) (Z : ZooCodes) (path value flags : VALUE) :
    Rb σ VALUE := do
  Check_Type path .T_STRING
  Check_Type value .T_STRING
  Check_Type flags .T_FIXNUM
  let zk ← Data_Get_Struct (← rb_iv_get_data)
  let flags ← FIX2INT flags
  let r ← zoo_create C zk.zh (RSTRING_ptr path) (RSTRING_ptr value) (RSTRING_len value)
    .OPEN_ACL_UNSAFE flags 10240
  check_errors Z r.rc
  return rb_str_new2 r.realpath

/-- The method `get`.  The data buffer is `char data[1024]`, and `data_len` goes in as
1024 and comes back as the length the client left. -/
def method_get {σ : Type} (C : ZooClient σ) (Z : ZooCodes) (path : VALUE) : Rb σ VALUE := do
  let data_len : Int := 1024
  Check_Type path .T_STRING
  let zk ← Data_Get_Struct (← rb_iv_get_data)
  let r ← zoo_get C zk.zh (RSTRING_ptr path) 0 data_len
  check_errors Z r.rc
  let output := rb_ary_new
  let output := rb_ary_push output (← rb_str_new r.buffer r.buffer_len)
  let output := rb_ary_push output (INT2FIX r.stat.version)
  return output

/-- The method `set`.  `FIX2INT(version)` is evaluated among the arguments, before the
call. -/
def method_set {σ : Type} (C : ZooClient σ) (Z : ZooCodes) (path data version : VALUE) :
    Rb σ VALUE := do
  Check_Type path .T_STRING
  Check_Type data .T_STRING
  Check_Type version .T_FIXNUM
  let zk ← Data_Get_Struct (← rb_iv_get_data)
  let version ← FIX2INT version
  let r ← zoo_set C zk.zh (RSTRING_ptr path) (RSTRING_ptr data) (RSTRING_len data) version
  check_errors Z r.rc
  return .Qnil

/-- Superclass given to a class at its definition. -/
def RbClass.superclass : RbClass → Option RbClass
  | .Zookeeper => some .rb_cObject
  | .eNoNode => some .rb_eRuntimeError
  | .eBadVersion => some .rb_eRuntimeError
  | _ => none

/-- The function `Init_c_zookeeper`: the classes it defines (variable and name) and the
methods it registers (name and arity). -/
def Init_c_zookeeper : List (RbClass × String) × List (String × Nat) :=
  ([(.Zookeeper, "CZookeeper"), (.eNoNode, "NoNodeError"), (.eBadVersion, "BadVersionError")],
   [("initialize", 1), ("ls", 1), ("create", 3), ("get", 1), ("set", 3)])

/-! ## A stand-in for the client library

An in-memory node store behind the `ZooClient` interface: a created value is stored
verbatim with version 0 (flags and ACL are ignored), reads copy at most `buffer_len`
bytes, writes compare the expected version.  It only serves to run the extension on
concrete inputs; the properties of the extension are stated for every `ZooClient`. -/

/-- A stored node. -/
structure Znode where
  path : Bytes
  data : Bytes
  version : Int
  deriving DecidableEq, Repr

/-- The node store, newest node first. -/
abbrev Ensemble := List Znode

/-- The node stored at a path. -/
def Ensemble.lookup (s : Ensemble) (p : Bytes) : Option Znode :=
  s.find? (fun n => decide (n.path = p))

/-- A `char` buffer of `size` bytes after a NUL-terminated copy of `src` into it. -/
def strcpy_into (size : Nat) (src : Bytes) : Bytes :=
  src.take (size - 1) ++ List.replicate (size - (src.take (size - 1)).length) 0

/-- A `char` buffer of `size` bytes after a copy of at most `size` bytes of `src`. -/
def memcpy_into (size : Nat) (src : Bytes) : Bytes :=
  src.take size ++ List.replicate (size - (src.take size).length) 0

/-- Name of `q` as a child of `parent`, when it is one. -/
def childName (parent q : Bytes) : Option Bytes :=
  let pre := if parent = [47] then parent else parent ++ [47]
  let name := q.drop pre.length
  if q.take pre.length = pre ∧ name ≠ [] ∧ (47 : UInt8) ∉ name then some name else none

/-- The stand-in client: every host gets handle 1, nodes live in the `Ensemble`. -/
def storeClient (Z : ZooCodes) : ZooClient Ensemble where
  zoo_set_debug_level s _ := s
  zoo_deterministic_conn_order s _ := s
  zookeeper_init s _ _ _ _ := ⟨s, some 1, 0⟩
  zoo_get_children s _ path _ :=
    match s.lookup (cstr path) with
    | none => ⟨s, Z.ZNONODE, ⟨0, []⟩⟩
    | some _ =>
      let names := (s.filterMap (fun n => childName (cstr path) n.path)).reverse
      ⟨s, Z.ZOK, ⟨(names.length : Int), names.map (fun n => n ++ [0])⟩⟩
  zoo_create s _ path value valuelen _ _ max_realpath_len :=
    match s.lookup (cstr path) with
    | some _ => ⟨s, Z.ZNODEEXISTS, List.replicate max_realpath_len.toNat 0⟩
    | none =>
      ⟨⟨cstr path, value.take valuelen.toNat, 0⟩ :: s, Z.ZOK,
       strcpy_into max_realpath_len.toNat (cstr path)⟩
  zoo_get s _ path _ buffer_len :=
    match s.lookup (cstr path) with
    | none => ⟨s, Z.ZNONODE, List.replicate buffer_len.toNat 0, buffer_len, ⟨0⟩⟩
    | some n =>
      ⟨s, Z.ZOK, memcpy_into buffer_len.toNat n.data,
       (((n.data.take buffer_len.toNat).length : Nat) : Int), ⟨n.version⟩⟩
  zoo_set s _ path buffer buflen version :=
    match s.lookup (cstr path) with
    | none => ⟨s, Z.ZNONODE⟩
    | some n =>
      if version = -1 ∨ version = n.version then
        ⟨s.map (fun m => if m.path = n.path then
            ⟨m.path, buffer.take buflen.toNat, m.version + 1⟩ else m), Z.ZOK⟩
      else ⟨s, Z.ZBADVERSION⟩

/-- A client that answers every call with one fixed reply, whatever the arguments. -/
def cannedClient (init : InitReply Unit) (children : ChildrenReply Unit)
    (create : CreateReply Unit) (get : GetReply Unit) (set : SetReply Unit) :
    ZooClient Unit where
  zoo_set_debug_level s _ := s
  zoo_deterministic_conn_order s _ := s
  zookeeper_init _ _ _ _ _ := init
  zoo_get_children _ _ _ _ := children
  zoo_create _ _ _ _ _ _ _ _ := create
  zoo_get _ _ _ _ _ := get
  zoo_set _ _ _ _ _ _ := set

/-- A world in which `initialize` has stored handle 1 and no call has been logged. -/
def connected {σ : Type} (zoo : σ) : World σ :=
  ⟨some ⟨1, Data_Make_Struct_myid⟩, zoo, []⟩

/-- A world before `initialize`. -/
def fresh {σ : Type} (zoo : σ) : World σ := ⟨none, zoo, []⟩

/-! ## Reading an outcome -/

/-- Class of the exception `check_errors` raises for a code (`none` when it returns). -/
def kind_raised (Z : ZooCodes) (rc : Int) : Option RbClass :=
  match check_errors Z rc with
  | .error e => some e.klass
  | .ok _ => none

/-- What a caller does to read the code back out of the message of the generic error:
skip the fixed text, read the decimal number. -/
def rc_of_mesg (mesg : String) : Int :=
  scan_d (mesg.data.drop "unknown error returned from zookeeper: ".length)

/-- A client whose every call succeeds with a fixed answer: handle 1, the children
`a` and `b`, the created path `/seq-0000000007`, the data `hi` at version 3. -/
def okClient : ZooClient Unit :=
  cannedClient ⟨(), some 1, 0⟩ ⟨(), 0, ⟨2, [[97, 0], [98, 0]]⟩⟩
    ⟨(), 0, [47, 115, 101, 113, 45, 48, 48, 48, 48, 48, 48, 48, 48, 48, 55, 0, 33, 33]⟩
    ⟨(), 0, [104, 105, 0, 0], 2, ⟨3⟩⟩ ⟨(), 0⟩

/-- A client whose `zoo_get` succeeds on a node that holds no data: the result code is
`ZOK` and the length it leaves in `data_len` is -1. -/
def nullDataClient : ZooClient Unit :=
  cannedClient ⟨(), some 1, 0⟩ ⟨(), 0, ⟨0, []⟩⟩ ⟨(), 0, [0]⟩
    ⟨(), 0, List.replicate 1024 0, -1, ⟨5⟩⟩ ⟨(), 0⟩

/-! ## Lemmas: `%d` rendering -/

theorem decDigits_lt (fuel : Nat) : ∀ n d, d ∈ decDigits fuel n → d < 10 := by
  induction fuel with
  | zero => intro n d h; simp [decDigits] at h
  | succ k ih =>
    intro n d h
    unfold decDigits at h
    split at h
    · simp at h; omega
    · rcases List.mem_cons.mp h with h1 | h1
      · omega
      · exact ih _ _ h1

theorem ofDigits_decDigits (fuel : Nat) :
    ∀ n, n < fuel → Nat.ofDigits 10 (decDigits fuel n) = n := by
  induction fuel with
  | zero => intro n h; omega
  | succ k ih =>
    intro n h
    unfold decDigits
    split
    · simp [Nat.ofDigits]
    · rw [Nat.ofDigits_cons, ih (n / 10) (by omega)]
      omega

theorem digitVal_digitChar (d : Nat) (h : d < 10) : digitVal (Nat.digitChar d) = d := by
  interval_cases d <;> rfl

theorem digitChar_ne_minus (d : Nat) (h : d < 10) : Nat.digitChar d ≠ '-' := by
  interval_cases d <;> decide

theorem scan_fmt_u (n : Nat) : Nat.ofDigits 10 (((fmt_u n).map digitVal).reverse) = n := by
  unfold fmt_u
  rw [List.map_map, ← List.map_reverse, List.reverse_reverse]
  have h : (decDigits (n + 1) n).map (digitVal ∘ Nat.digitChar) = decDigits (n + 1) n := by
    conv_rhs => rw [← List.map_id (decDigits (n + 1) n)]
    apply List.map_congr_left
    intro d hd
    simp [digitVal_digitChar d (decDigits_lt _ _ _ hd)]
  rw [h, ofDigits_decDigits _ _ (Nat.lt_succ_self n)]

theorem fmt_u_head (n : Nat) : (fmt_u n).head? ≠ some '-' := by
  intro h
  have hm : '-' ∈ fmt_u n := List.mem_of_mem_head? h
  unfold fmt_u at hm
  rcases List.mem_map.mp hm with ⟨d, hd, hc⟩
  exact digitChar_ne_minus d (decDigits_lt _ _ _ (List.mem_reverse.mp hd)) hc

/-- Reading back what `%d` printed gives the integer printed. -/
theorem scan_d_fmt_d (n : Int) : scan_d (fmt_d n).data = n := by
  unfold fmt_d scan_d
  by_cases hn : n < 0
  · simp only [hn, if_true, List.head?_cons, List.tail_cons, scan_fmt_u]
    omega
  · simp only [hn, if_false, fmt_u_head, scan_fmt_u]
    omega

/-! ## Lemmas: `check_errors` -/

theorem check_errors_ZOK (Z : ZooCodes) : check_errors Z Z.ZOK = .ok () := by
  unfold check_errors
  rw [if_pos rfl]; rfl

/-- Every result code lands in exactly one of four outcomes. -/
theorem check_errors_cases (Z : ZooCodes) (rc : Int) :
    (rc = Z.ZOK ∧ check_errors Z rc = .ok ()) ∨
    (rc ≠ Z.ZOK ∧ ∃ m, check_errors Z rc = .error ⟨.rb_eRuntimeError, m⟩) ∨
    (rc ≠ Z.ZOK ∧ rc = Z.ZNONODE ∧
      check_errors Z rc = .error ⟨.eNoNode, "the node does not exist"⟩) ∨
    (rc ≠ Z.ZOK ∧ rc = Z.ZBADVERSION ∧
      check_errors Z rc =
        .error ⟨.eBadVersion, "expected version does not match actual version"⟩) := by
  unfold check_errors
  by_cases h0 : rc = Z.ZOK
  · rw [if_pos h0]; exact Or.inl ⟨h0, rfl⟩
  rw [if_neg h0]
  by_cases h1 : rc = Z.ZBADARGUMENTS
  · rw [if_pos h1]; exact Or.inr (Or.inl ⟨h0, _, rfl⟩)
  rw [if_neg h1]
  by_cases h2 : rc = Z.ZMARSHALLINGERROR
  · rw [if_pos h2]; exact Or.inr (Or.inl ⟨h0, _, rfl⟩)
  rw [if_neg h2]
  by_cases h3 : rc = Z.ZOPERATIONTIMEOUT
  · rw [if_pos h3]; exact Or.inr (Or.inl ⟨h0, _, rfl⟩)
  rw [if_neg h3]
  by_cases h4 : rc = Z.ZCONNECTIONLOSS
  · rw [if_pos h4]; exact Or.inr (Or.inl ⟨h0, _, rfl⟩)
  rw [if_neg h4]
  by_cases h5 : rc = Z.ZSYSTEMERROR
  · rw [if_pos h5]; exact Or.inr (Or.inl ⟨h0, _, rfl⟩)
  rw [if_neg h5]
  by_cases h6 : rc = Z.ZNONODE
  · rw [if_pos h6]; exact Or.inr (Or.inr (Or.inl ⟨h0, h6, rfl⟩))
  rw [if_neg h6]
  by_cases h7 : rc = Z.ZNOAUTH
  · rw [if_pos h7]; exact Or.inr (Or.inl ⟨h0, _, rfl⟩)
  rw [if_neg h7]
  by_cases h8 : rc = Z.ZBADVERSION
  · rw [if_pos h8]; exact Or.inr (Or.inr (Or.inr ⟨h0, h8, rfl⟩))
  rw [if_neg h8]
  by_cases h9 : rc = Z.ZINVALIDSTATE
  · rw [if_pos h9]; exact Or.inr (Or.inl ⟨h0, _, rfl⟩)
  rw [if_neg h9]
  by_cases h10 : rc = Z.ZNODEEXISTS
  · rw [if_pos h10]; exact Or.inr (Or.inl ⟨h0, _, rfl⟩)
  rw [if_neg h10]
  by_cases h11 : rc = Z.ZNOCHILDRENFOREPHEMERALS
  · rw [if_pos h11]; exact Or.inr (Or.inl ⟨h0, _, rfl⟩)
  rw [if_neg h11]
  by_cases h12 : rc = Z.ZINVALIDACL
  · rw [if_pos h12]; exact Or.inr (Or.inl ⟨h0, _, rfl⟩)
  rw [if_neg h12]
  exact Or.inr (Or.inl ⟨h0, _, rfl⟩)

theorem check_errors_ok_iff (Z : ZooCodes) (rc : Int) :
    check_errors Z rc = .ok () ↔ rc = Z.ZOK := by
  constructor
  · intro h
    rcases check_errors_cases Z rc with ⟨h0, _⟩ | ⟨_, m, hm⟩ | ⟨_, _, hm⟩ | ⟨_, _, hm⟩
    · exact h0
    all_goals (rw [hm] at h; cases h)
  · intro h; rw [h]; exact check_errors_ZOK Z

theorem check_errors_raises (Z : ZooCodes) (rc : Int) (h : rc ≠ Z.ZOK) :
    ∃ e, check_errors Z rc = .error e := by
  rcases check_errors_cases Z rc with ⟨h0, _⟩ | ⟨_, m, hm⟩ | ⟨_, _, hm⟩ | ⟨_, _, hm⟩
  · exact absurd h0 h
  all_goals exact ⟨_, hm⟩

theorem check_errors_eNoNode_only (Z : ZooCodes) (rc : Int) (e : RbError)
    (h : check_errors Z rc = .error e) (hk : e.klass = .eNoNode) : rc = Z.ZNONODE := by
  rcases check_errors_cases Z rc with ⟨_, hm⟩ | ⟨_, m, hm⟩ | ⟨_, h6, _⟩ | ⟨_, _, hm⟩
  · rw [hm] at h; cases h
  · rw [hm] at h; cases h; cases hk
  · exact h6
  · rw [hm] at h; cases h; cases hk

theorem check_errors_eBadVersion_only (Z : ZooCodes) (rc : Int) (e : RbError)
    (h : check_errors Z rc = .error e) (hk : e.klass = .eBadVersion) :
    rc = Z.ZBADVERSION := by
  rcases check_errors_cases Z rc with ⟨_, hm⟩ | ⟨_, m, hm⟩ | ⟨_, _, hm⟩ | ⟨_, h8, _⟩
  · rw [hm] at h; cases h
  · rw [hm] at h; cases h; cases hk
  · rw [hm] at h; cases h; cases hk
  · exact h8

theorem check_errors_unknown (Z : ZooCodes) (rc : Int) (h : rc ∉ Z.labels) :
    check_errors Z rc =
      .error ⟨.rb_eRuntimeError, "unknown error returned from zookeeper: " ++ fmt_d rc⟩ := by
  simp only [ZooCodes.labels, List.mem_cons, not_or, List.mem_singleton, List.not_mem_nil,
    not_false_eq_true, and_true] at h
  obtain ⟨h0, h1, h2, h3, h4, h5, h6, h7, h8, h9, h10, h11, h12⟩ := h
  unfold check_errors
  rw [if_neg h0, if_neg h1, if_neg h2, if_neg h3, if_neg h4, if_neg h5, if_neg h6, if_neg h7,
    if_neg h8, if_neg h9, if_neg h10, if_neg h11, if_neg h12]
  rfl

/-- Two labels at different positions of the `switch` differ. -/
theorem labels_ne (Z : ZooCodes) (hZ : Z.Distinct) (i j : Nat) (hi : i < 13) (hj : j < 13)
    (hij : i ≠ j) : Z.labels.getD i 0 ≠ Z.labels.getD j 0 := by
  have hl : Z.labels.length = 13 := rfl
  rw [List.getD_eq_getElem _ _ (hl ▸ hi), List.getD_eq_getElem _ _ (hl ▸ hj)]
  exact fun h => hij ((List.Nodup.getElem_inj_iff hZ).mp h)

theorem check_errors_ZNONODE (Z : ZooCodes) (hZ : Z.Distinct) :
    check_errors Z Z.ZNONODE = .error ⟨.eNoNode, "the node does not exist"⟩ := by
  have ne := fun i j hi hj hij => labels_ne Z hZ i j hi hj hij
  unfold check_errors
  rw [if_neg (show Z.ZNONODE ≠ Z.ZOK from ne 6 0 (by decide) (by decide) (by decide)),
    if_neg (show Z.ZNONODE ≠ Z.ZBADARGUMENTS from ne 6 1 (by decide) (by decide) (by decide)),
    if_neg (show Z.ZNONODE ≠ Z.ZMARSHALLINGERROR from ne 6 2 (by decide) (by decide) (by decide)),
    if_neg (show Z.ZNONODE ≠ Z.ZOPERATIONTIMEOUT from ne 6 3 (by decide) (by decide) (by decide)),
    if_neg (show Z.ZNONODE ≠ Z.ZCONNECTIONLOSS from ne 6 4 (by decide) (by decide) (by decide)),
    if_neg (show Z.ZNONODE ≠ Z.ZSYSTEMERROR from ne 6 5 (by decide) (by decide) (by decide)),
    if_pos rfl]
  rfl

theorem check_errors_ZBADVERSION (Z : ZooCodes) (hZ : Z.Distinct) :
    check_errors Z Z.ZBADVERSION = .error ⟨.eBadVersion, "expected version does not match actual version"⟩ := by
  have ne := fun i j hi hj hij => labels_ne Z hZ i j hi hj hij
  unfold check_errors
  rw [if_neg (show Z.ZBADVERSION ≠ Z.ZOK from ne 8 0 (by decide) (by decide) (by decide)),
    if_neg (show Z.ZBADVERSION ≠ Z.ZBADARGUMENTS from ne 8 1 (by decide) (by decide) (by decide)),
    if_neg (show Z.ZBADVERSION ≠ Z.ZMARSHALLINGERROR from ne 8 2 (by decide) (by decide) (by decide)),
    if_neg (show Z.ZBADVERSION ≠ Z.ZOPERATIONTIMEOUT from ne 8 3 (by decide) (by decide) (by decide)),
    if_neg (show Z.ZBADVERSION ≠ Z.ZCONNECTIONLOSS from ne 8 4 (by decide) (by decide) (by decide)),
    if_neg (show Z.ZBADVERSION ≠ Z.ZSYSTEMERROR from ne 8 5 (by decide) (by decide) (by decide)),
    if_neg (show Z.ZBADVERSION ≠ Z.ZNONODE from ne 8 6 (by decide) (by decide) (by decide)),
    if_neg (show Z.ZBADVERSION ≠ Z.ZNOAUTH from ne 8 7 (by decide) (by decide) (by decide)),
    if_pos rfl]
  rfl

theorem check_errors_ZNODEEXISTS (Z : ZooCodes) (hZ : Z.Distinct) :
    check_errors Z Z.ZNODEEXISTS = .error ⟨.rb_eRuntimeError, "the node already exists"⟩ := by
  have ne := fun i j hi hj hij => labels_ne Z hZ i j hi hj hij
  unfold check_errors
  rw [if_neg (show Z.ZNODEEXISTS ≠ Z.ZOK from ne 10 0 (by decide) (by decide) (by decide)),
    if_neg (show Z.ZNODEEXISTS ≠ Z.ZBADARGUMENTS from ne 10 1 (by decide) (by decide) (by decide)),
    if_neg (show Z.ZNODEEXISTS ≠ Z.ZMARSHALLINGERROR from ne 10 2 (by decide) (by decide) (by decide)),
    if_neg (show Z.ZNODEEXISTS ≠ Z.ZOPERATIONTIMEOUT from ne 10 3 (by decide) (by decide) (by decide)),
    if_neg (show Z.ZNODEEXISTS ≠ Z.ZCONNECTIONLOSS from ne 10 4 (by decide) (by decide) (by decide)),
    if_neg (show Z.ZNODEEXISTS ≠ Z.ZSYSTEMERROR from ne 10 5 (by decide) (by decide) (by decide)),
    if_neg (show Z.ZNODEEXISTS ≠ Z.ZNONODE from ne 10 6 (by decide) (by decide) (by decide)),
    if_neg (show Z.ZNODEEXISTS ≠ Z.ZNOAUTH from ne 10 7 (by decide) (by decide) (by decide)),
    if_neg (show Z.ZNODEEXISTS ≠ Z.ZBADVERSION from ne 10 8 (by decide) (by decide) (by decide)),
    if_neg (show Z.ZNODEEXISTS ≠ Z.ZINVALIDSTATE from ne 10 9 (by decide) (by decide) (by decide)),
    if_pos rfl]
  rfl

theorem check_errors_ZNOCHILDRENFOREPHEMERALS (Z : ZooCodes) (hZ : Z.Distinct) :
    check_errors Z Z.ZNOCHILDRENFOREPHEMERALS = .error ⟨.rb_eRuntimeError, "cannot create children of ephemeral nodes"⟩ := by
  have ne := fun i j hi hj hij => labels_ne Z hZ i j hi hj hij
  unfold check_errors
  rw [if_neg (show Z.ZNOCHILDRENFOREPHEMERALS ≠ Z.ZOK from ne 11 0 (by decide) (by decide) (by decide)),
    if_neg (show Z.ZNOCHILDRENFOREPHEMERALS ≠ Z.ZBADARGUMENTS from ne 11 1 (by decide) (by decide) (by decide)),
    if_neg (show Z.ZNOCHILDRENFOREPHEMERALS ≠ Z.ZMARSHALLINGERROR from ne 11 2 (by decide) (by decide) (by decide)),
    if_neg (show Z.ZNOCHILDRENFOREPHEMERALS ≠ Z.ZOPERATIONTIMEOUT from ne 11 3 (by decide) (by decide) (by decide)),
    if_neg (show Z.ZNOCHILDRENFOREPHEMERALS ≠ Z.ZCONNECTIONLOSS from ne 11 4 (by decide) (by decide) (by decide)),
    if_neg (show Z.ZNOCHILDRENFOREPHEMERALS ≠ Z.ZSYSTEMERROR from ne 11 5 (by decide) (by decide) (by decide)),
    if_neg (show Z.ZNOCHILDRENFOREPHEMERALS ≠ Z.ZNONODE from ne 11 6 (by decide) (by decide) (by decide)),
    if_neg (show Z.ZNOCHILDRENFOREPHEMERALS ≠ Z.ZNOAUTH from ne 11 7 (by decide) (by decide) (by decide)),
    if_neg (show Z.ZNOCHILDRENFOREPHEMERALS ≠ Z.ZBADVERSION from ne 11 8 (by decide) (by decide) (by decide)),
    if_neg (show Z.ZNOCHILDRENFOREPHEMERALS ≠ Z.ZINVALIDSTATE from ne 11 9 (by decide) (by decide) (by decide)),
    if_neg (show Z.ZNOCHILDRENFOREPHEMERALS ≠ Z.ZNODEEXISTS from ne 11 10 (by decide) (by decide) (by decide)),
    if_pos rfl]
  rfl

theorem check_errors_ZINVALIDACL (Z : ZooCodes) (hZ : Z.Distinct) :
    check_errors Z Z.ZINVALIDACL = .error ⟨.rb_eRuntimeError, "invalid ACL specified"⟩ := by
  have ne := fun i j hi hj hij => labels_ne Z hZ i j hi hj hij
  unfold check_errors
  rw [if_neg (show Z.ZINVALIDACL ≠ Z.ZOK from ne 12 0 (by decide) (by decide) (by decide)),
    if_neg (show Z.ZINVALIDACL ≠ Z.ZBADARGUMENTS from ne 12 1 (by decide) (by decide) (by decide)),
    if_neg (show Z.ZINVALIDACL ≠ Z.ZMARSHALLINGERROR from ne 12 2 (by decide) (by decide) (by decide)),
    if_neg (show Z.ZINVALIDACL ≠ Z.ZOPERATIONTIMEOUT from ne 12 3 (by decide) (by decide) (by decide)),
    if_neg (show Z.ZINVALIDACL ≠ Z.ZCONNECTIONLOSS from ne 12 4 (by decide) (by decide) (by decide)),
    if_neg (show Z.ZINVALIDACL ≠ Z.ZSYSTEMERROR from ne 12 5 (by decide) (by decide) (by decide)),
    if_neg (show Z.ZINVALIDACL ≠ Z.ZNONODE from ne 12 6 (by decide) (by decide) (by decide)),
    if_neg (show Z.ZINVALIDACL ≠ Z.ZNOAUTH from ne 12 7 (by decide) (by decide) (by decide)),
    if_neg (show Z.ZINVALIDACL ≠ Z.ZBADVERSION from ne 12 8 (by decide) (by decide) (by decide)),
    if_neg (show Z.ZINVALIDACL ≠ Z.ZINVALIDSTATE from ne 12 9 (by decide) (by decide) (by decide)),
    if_neg (show Z.ZINVALIDACL ≠ Z.ZNODEEXISTS from ne 12 10 (by decide) (by decide) (by decide)),
    if_neg (show Z.ZINVALIDACL ≠ Z.ZNOCHILDRENFOREPHEMERALS from ne 12 11 (by decide) (by decide) (by decide)),
    if_pos rfl]
  rfl

/-- The error raised, branch by branch: for each named code its class and text, and for
any other code the text that ends in the code. -/
theorem check_errors_error_cases (Z : ZooCodes) (rc : Int) (e : RbError)
    (h : check_errors Z rc = .error e) :
    (rc = Z.ZBADARGUMENTS ∧ e = ⟨.rb_eRuntimeError, "invalid input parameters"⟩) ∨
    (rc = Z.ZMARSHALLINGERROR ∧ e = ⟨.rb_eRuntimeError, "failed to marshall a request; possibly out of memory"⟩) ∨
    (rc = Z.ZOPERATIONTIMEOUT ∧ e = ⟨.rb_eRuntimeError, "failed to flush the buffers within the specified timeout"⟩) ∨
    (rc = Z.ZCONNECTIONLOSS ∧ e = ⟨.rb_eRuntimeError, "a network error occured while attempting to send request to server"⟩) ∨
    (rc = Z.ZSYSTEMERROR ∧ e = ⟨.rb_eRuntimeError, "a system (OS) error occured; it's worth checking errno to get details"⟩) ∨
    (rc = Z.ZNONODE ∧ e = ⟨.eNoNode, "the node does not exist"⟩) ∨
    (rc = Z.ZNOAUTH ∧ e = ⟨.rb_eRuntimeError, "the client does not have permission"⟩) ∨
    (rc = Z.ZBADVERSION ∧ e = ⟨.eBadVersion, "expected version does not match actual version"⟩) ∨
    (rc = Z.ZINVALIDSTATE ∧ e = ⟨.rb_eRuntimeError, "zhandle state is either SESSION_EXPIRED_STATE or AUTH_FAILED_STATE"⟩) ∨
    (rc = Z.ZNODEEXISTS ∧ e = ⟨.rb_eRuntimeError, "the node already exists"⟩) ∨
    (rc = Z.ZNOCHILDRENFOREPHEMERALS ∧ e = ⟨.rb_eRuntimeError, "cannot create children of ephemeral nodes"⟩) ∨
    (rc = Z.ZINVALIDACL ∧ e = ⟨.rb_eRuntimeError, "invalid ACL specified"⟩) ∨
    (e = ⟨.rb_eRuntimeError, "unknown error returned from zookeeper: " ++ fmt_d rc⟩) := by
  unfold check_errors at h
  by_cases h0 : rc = Z.ZOK
  · rw [if_pos h0] at h; cases h
  rw [if_neg h0] at h
  by_cases h1 : rc = Z.ZBADARGUMENTS
  · rw [if_pos h1] at h; cases h; exact Or.inl ⟨h1, rfl⟩
  rw [if_neg h1] at h
  by_cases h2 : rc = Z.ZMARSHALLINGERROR
  · rw [if_pos h2] at h; cases h; exact Or.inr (Or.inl ⟨h2, rfl⟩)
  rw [if_neg h2] at h
  by_cases h3 : rc = Z.ZOPERATIONTIMEOUT
  · rw [if_pos h3] at h; cases h; exact Or.inr (Or.inr (Or.inl ⟨h3, rfl⟩))
  rw [if_neg h3] at h
  by_cases h4 : rc = Z.ZCONNECTIONLOSS
  · rw [if_pos h4] at h; cases h; exact Or.inr (Or.inr (Or.inr (Or.inl ⟨h4, rfl⟩)))
  rw [if_neg h4] at h
  by_cases h5 : rc = Z.ZSYSTEMERROR
  · rw [if_pos h5] at h; cases h; exact Or.inr (Or.inr (Or.inr (Or.inr (Or.inl ⟨h5, rfl⟩))))
  rw [if_neg h5] at h
  by_cases h6 : rc = Z.ZNONODE
  · rw [if_pos h6] at h; cases h; exact Or.inr (Or.inr (Or.inr (Or.inr (Or.inr (Or.inl ⟨h6, rfl⟩)))))
  rw [if_neg h6] at h
  by_cases h7 : rc = Z.ZNOAUTH
  · rw [if_pos h7] at h; cases h; exact Or.inr (Or.inr (Or.inr (Or.inr (Or.inr (Or.inr (Or.inl ⟨h7, rfl⟩))))))
  rw [if_neg h7] at h
  by_cases h8 : rc = Z.ZBADVERSION
  · rw [if_pos h8] at h; cases h; exact Or.inr (Or.inr (Or.inr (Or.inr (Or.inr (Or.inr (Or.inr (Or.inl ⟨h8, rfl⟩)))))))
  rw [if_neg h8] at h
  by_cases h9 : rc = Z.ZINVALIDSTATE
  · rw [if_pos h9] at h; cases h; exact Or.inr (Or.inr (Or.inr (Or.inr (Or.inr (Or.inr (Or.inr (Or.inr (Or.inl ⟨h9, rfl⟩))))))))
  rw [if_neg h9] at h
  by_cases h10 : rc = Z.ZNODEEXISTS
  · rw [if_pos h10] at h; cases h; exact Or.inr (Or.inr (Or.inr (Or.inr (Or.inr (Or.inr (Or.inr (Or.inr (Or.inr (Or.inl ⟨h10, rfl⟩)))))))))
  rw [if_neg h10] at h
  by_cases h11 : rc = Z.ZNOCHILDRENFOREPHEMERALS
  · rw [if_pos h11] at h; cases h; exact Or.inr (Or.inr (Or.inr (Or.inr (Or.inr (Or.inr (Or.inr (Or.inr (Or.inr (Or.inr (Or.inl ⟨h11, rfl⟩))))))))))
  rw [if_neg h11] at h
  by_cases h12 : rc = Z.ZINVALIDACL
  · rw [if_pos h12] at h; cases h; exact Or.inr (Or.inr (Or.inr (Or.inr (Or.inr (Or.inr (Or.inr (Or.inr (Or.inr (Or.inr (Or.inr (Or.inl ⟨h12, rfl⟩)))))))))))
  rw [if_neg h12] at h
  cases h; exact Or.inr (Or.inr (Or.inr (Or.inr (Or.inr (Or.inr (Or.inr (Or.inr (Or.inr (Or.inr (Or.inr (Or.inr (rfl))))))))))))

/-! ## Lemmas: `FIX2INT` -/

theorem FIX2INT_in_range (n : Int) (hlo : INT_MIN ≤ n) (hhi : n ≤ INT_MAX) :
    FIX2INT (.fixnum n) = .ok n := by
  show (if n < INT_MIN then _ else if INT_MAX < n then _ else pure n) = _
  rw [if_neg (not_lt.mpr hlo), if_neg (not_lt.mpr hhi)]
  rfl

theorem FIX2INT_too_big (n : Int) (h : INT_MAX < n) :
    FIX2INT (.fixnum n) =
      .error ⟨.rb_eRangeError, "integer " ++ fmt_d n ++ " too big to convert to `int'"⟩ := by
  have hlo : ¬ n < INT_MIN := by
    have : INT_MIN ≤ INT_MAX := by decide
    omega
  show (if n < INT_MIN then _ else if INT_MAX < n then _ else pure n) = _
  rw [if_neg hlo, if_pos h]
  rfl

theorem FIX2INT_too_small (n : Int) (h : n < INT_MIN) :
    FIX2INT (.fixnum n) =
      .error ⟨.rb_eRangeError, "integer " ++ fmt_d n ++ " too small to convert to `int'"⟩ := by
  show (if n < INT_MIN then _ else if INT_MAX < n then _ else pure n) = _
  rw [if_pos h]
  rfl

/-! ## Lemmas: what each method does on well-typed arguments -/

theorem method_ls_run {σ : Type} (C : ZooClient σ) (Z : ZooCodes) (path : Bytes) (w : World σ)
    (zk : zk_rb_data) (hd : w.data = some zk) :
    method_ls C Z (.str path) w =
      ⟨{ w with zoo := (C.zoo_get_children w.zoo zk.zh path 0).zoo,
                calls := w.calls ++ [Call.zoo_get_children zk.zh path 0] },
       (check_errors Z (C.zoo_get_children w.zoo zk.zh path 0).rc).map (fun _ =>
          (List.range (C.zoo_get_children w.zoo zk.zh path 0).strings.count.toNat).foldl
            (fun output i => rb_ary_push output
              (rb_str_new2 ((C.zoo_get_children w.zoo zk.zh path 0).strings.data.getD i [])))
            rb_ary_new)⟩ := by
  simp only [method_ls, bind, Rb.bind, pure, Rb.pure, liftM, monadLift, MonadLift.monadLift,
    Rb.ofExcept, Check_Type, VALUE.TYPE, rb_iv_get_data, hd, Data_Get_Struct, zoo_get_children,
    RSTRING_ptr, if_true, Except.pure]
  cases hc : check_errors Z (C.zoo_get_children w.zoo zk.zh path 0).rc <;> simp [Except.map]

theorem method_create_run {σ : Type} (C : ZooClient σ) (Z : ZooCodes) (path value : Bytes)
    (flags : Int) (w : World σ) (zk : zk_rb_data) (hd : w.data = some zk)
    (hlo : INT_MIN ≤ flags) (hhi : flags ≤ INT_MAX) :
    method_create C Z (.str path) (.str value) (.fixnum flags) w =
      ⟨{ w with
          zoo := (C.zoo_create w.zoo zk.zh path value value.length .OPEN_ACL_UNSAFE flags
            10240).zoo,
          calls := w.calls ++
            [Call.zoo_create zk.zh path value value.length .OPEN_ACL_UNSAFE flags 10240] },
       (check_errors Z
          (C.zoo_create w.zoo zk.zh path value value.length .OPEN_ACL_UNSAFE flags 10240).rc).map
        (fun _ => rb_str_new2
          (C.zoo_create w.zoo zk.zh path value value.length .OPEN_ACL_UNSAFE flags
            10240).realpath)⟩ := by
  simp only [method_create, bind, Rb.bind, pure, Rb.pure, liftM, monadLift,
    MonadLift.monadLift, Rb.ofExcept, Check_Type, VALUE.TYPE, rb_iv_get_data, hd,
    Data_Get_Struct, zoo_create, RSTRING_ptr, RSTRING_len, FIX2INT_in_range flags hlo hhi,
    if_true, Except.pure]
  cases hc : check_errors Z
    (C.zoo_create w.zoo zk.zh path value value.length .OPEN_ACL_UNSAFE flags 10240).rc <;>
    simp [Except.map]

theorem method_get_run {σ : Type} (C : ZooClient σ) (Z : ZooCodes) (path : Bytes) (w : World σ)
    (zk : zk_rb_data) (hd : w.data = some zk) :
    method_get C Z (.str path) w =
      ⟨{ w with zoo := (C.zoo_get w.zoo zk.zh path 0 1024).zoo,
                calls := w.calls ++ [Call.zoo_get zk.zh path 0 1024] },
       (check_errors Z (C.zoo_get w.zoo zk.zh path 0 1024).rc).bind (fun _ =>
         (rb_str_new (C.zoo_get w.zoo zk.zh path 0 1024).buffer
            (C.zoo_get w.zoo zk.zh path 0 1024).buffer_len).map (fun s =>
           rb_ary_push (rb_ary_push rb_ary_new s)
             (INT2FIX (C.zoo_get w.zoo zk.zh path 0 1024).stat.version)))⟩ := by
  simp only [method_get, bind, Rb.bind, pure, Rb.pure, liftM, monadLift, MonadLift.monadLift,
    Rb.ofExcept, Check_Type, VALUE.TYPE, rb_iv_get_data, hd, Data_Get_Struct, zoo_get,
    RSTRING_ptr, if_true, Except.pure]
  cases hc : check_errors Z (C.zoo_get w.zoo zk.zh path 0 1024).rc
  · simp [Except.bind]
  · cases hs : rb_str_new (C.zoo_get w.zoo zk.zh path 0 1024).buffer
      (C.zoo_get w.zoo zk.zh path 0 1024).buffer_len <;> simp [Except.bind, Except.map]

theorem method_set_run {σ : Type} (C : ZooClient σ) (Z : ZooCodes) (path data : Bytes)
    (version : Int) (w : World σ) (zk : zk_rb_data) (hd : w.data = some zk)
    (hlo : INT_MIN ≤ version) (hhi : version ≤ INT_MAX) :
    method_set C Z (.str path) (.str data) (.fixnum version) w =
      ⟨{ w with zoo := (C.zoo_set w.zoo zk.zh path data data.length version).zoo,
                calls := w.calls ++ [Call.zoo_set zk.zh path data data.length version] },
       (check_errors Z (C.zoo_set w.zoo zk.zh path data data.length version).rc).map
         (fun _ => VALUE.Qnil)⟩ := by
  simp only [method_set, bind, Rb.bind, pure, Rb.pure, liftM, monadLift, MonadLift.monadLift,
    Rb.ofExcept, Check_Type, VALUE.TYPE, rb_iv_get_data, hd, Data_Get_Struct, zoo_set,
    RSTRING_ptr, RSTRING_len, FIX2INT_in_range version hlo hhi, if_true, Except.pure]
  cases hc : check_errors Z (C.zoo_set w.zoo zk.zh path data data.length version).rc <;>
    simp [Except.map]

/-- A version above the range of `int`: `set` raises `RangeError` and calls nothing. -/
theorem method_set_too_big {σ : Type} (C : ZooClient σ) (Z : ZooCodes) (path data : Bytes)
    (version : Int) (w : World σ) (zk : zk_rb_data) (hd : w.data = some zk)
    (h : INT_MAX < version) :
    method_set C Z (.str path) (.str data) (.fixnum version) w =
      ⟨w, .error ⟨.rb_eRangeError,
        "integer " ++ fmt_d version ++ " too big to convert to `int'"⟩⟩ := by
  simp only [method_set, bind, Rb.bind, pure, Rb.pure, liftM, monadLift, MonadLift.monadLift,
    Rb.ofExcept, Check_Type, VALUE.TYPE, rb_iv_get_data, hd, Data_Get_Struct,
    FIX2INT_too_big version h, if_true, Except.pure]

theorem method_initialize_run {σ : Type} (C : ZooClient σ) (hostPort : Bytes) (w : World σ) :
    method_initialize C (.str hostPort) w =
      ⟨{ data := match (C.zookeeper_init
              (C.zoo_deterministic_conn_order (C.zoo_set_debug_level w.zoo .LOG_LEVEL_DEBUG) 1)
              hostPort 10000 Data_Make_Struct_myid 0).zh with
            | none => w.data
            | some zh => some ⟨zh, Data_Make_Struct_myid⟩,
         zoo := (C.zookeeper_init
              (C.zoo_deterministic_conn_order (C.zoo_set_debug_level w.zoo .LOG_LEVEL_DEBUG) 1)
              hostPort 10000 Data_Make_Struct_myid 0).zoo,
         calls := w.calls ++ [Call.zoo_set_debug_level .LOG_LEVEL_DEBUG,
            Call.zoo_deterministic_conn_order 1,
            Call.zookeeper_init hostPort 10000 Data_Make_Struct_myid 0] },
       match (C.zookeeper_init
              (C.zoo_deterministic_conn_order (C.zoo_set_debug_level w.zoo .LOG_LEVEL_DEBUG) 1)
              hostPort 10000 Data_Make_Struct_myid 0).zh with
       | none => .error ⟨.rb_eRuntimeError, "error connecting to zookeeper: " ++
           fmt_d (C.zookeeper_init
              (C.zoo_deterministic_conn_order (C.zoo_set_debug_level w.zoo .LOG_LEVEL_DEBUG) 1)
              hostPort 10000 Data_Make_Struct_myid 0).errno⟩
       | some _ => .ok .Qnil⟩ := by
  simp only [ method_initialize, bind, Rb.bind, pure, Rb.pure, liftM, monadLift,
    MonadLift.monadLift, Rb.ofExcept, Check_Type, VALUE.TYPE, zoo_set_debug_level,
    zoo_deterministic_conn_order, zookeeper_init, RSTRING_ptr, if_true, Except.pure]
  cases hz : (C.zookeeper_init
      (C.zoo_deterministic_conn_order (C.zoo_set_debug_level w.zoo .LOG_LEVEL_DEBUG) 1)
      hostPort 10000 Data_Make_Struct_myid 0).zh <;>
    simp [rb_raise, rb_iv_set_data, Rb.ofExcept, Rb.bind, Rb.pure]

/-! ## Lemmas: buffers and arrays -/

theorem cstr_append_nul (s rest : Bytes) (h : (0 : UInt8) ∉ s) : cstr (s ++ 0 :: rest) = s := by
  induction s with
  | nil => simp [cstr]
  | cons a t ih =>
    have ha : a ≠ 0 := fun e => h (by simp [e])
    have ht : (0 : UInt8) ∉ t := fun m => h (List.mem_cons_of_mem _ m)
    have := ih ht
    simp only [cstr] at this ⊢
    simp [List.takeWhile_cons, ha, this]

theorem foldl_rb_ary_push (f : Nat → VALUE) (l : List Nat) (acc : List VALUE) :
    l.foldl (fun output i => rb_ary_push output (f i)) (.ary acc) = .ary (acc ++ l.map f) := by
  induction l generalizing acc with
  | nil => simp
  | cons a t ih =>
    rw [List.foldl_cons]
    have h : rb_ary_push (.ary acc) (f a) = .ary (acc ++ [f a]) := rfl
    rw [h, ih]
    simp

theorem range_map_getD (data : List Bytes) (f : Bytes → VALUE) :
    (List.range data.length).map (fun i => f (data.getD i [])) = data.map f := by
  apply List.ext_getElem
  · simp
  · intro i h1 h2
    simp at h1
    simp [List.getD_eq_getElem, h1]


/-! ## Lemmas: a result decided by the result code -/

theorem check_errors_map_ok {β : Type} (Z : ZooCodes) (rc : Int) (f : Unit → β)
    (h : rc = Z.ZOK) : (check_errors Z rc).map f = .ok (f ()) := by
  rw [(check_errors_ok_iff Z rc).mpr h]; rfl

theorem check_errors_map_ok_inv {β : Type} (Z : ZooCodes) (rc : Int) (f : Unit → β) (v : β)
    (h : (check_errors Z rc).map f = .ok v) : rc = Z.ZOK := by
  cases hc : check_errors Z rc with
  | error e => rw [hc] at h; cases h
  | ok u => exact (check_errors_ok_iff Z rc).mp hc

theorem check_errors_map_error {β : Type} (Z : ZooCodes) (rc : Int) (f : Unit → β)
    (h : rc ≠ Z.ZOK) :
    ∃ e, check_errors Z rc = .error e ∧ (check_errors Z rc).map f = .error e := by
  obtain ⟨e, he⟩ := check_errors_raises Z rc h
  exact ⟨e, he, by rw [he]; rfl⟩

theorem check_errors_bind_ok {β : Type} (Z : ZooCodes) (rc : Int)
    (g : Unit → Except RbError β) (h : rc = Z.ZOK) : (check_errors Z rc).bind g = g () := by
  rw [(check_errors_ok_iff Z rc).mpr h]; rfl

theorem check_errors_bind_ok_inv {β : Type} (Z : ZooCodes) (rc : Int)
    (g : Unit → Except RbError β) (v : β) (h : (check_errors Z rc).bind g = .ok v) :
    rc = Z.ZOK := by
  cases hc : check_errors Z rc with
  | error e => rw [hc] at h; cases h
  | ok u => exact (check_errors_ok_iff Z rc).mp hc

theorem check_errors_bind_error {β : Type} (Z : ZooCodes) (rc : Int)
    (g : Unit → Except RbError β) (h : rc ≠ Z.ZOK) :
    ∃ e, check_errors Z rc = .error e ∧ (check_errors Z rc).bind g = .error e := by
  obtain ⟨e, he⟩ := check_errors_raises Z rc h
  exact ⟨e, he, by rw [he]; rfl⟩

theorem ls_output_eq (strings : String_vector) :
    (List.range strings.count.toNat).foldl
      (fun output i => rb_ary_push output (rb_str_new2 (strings.data.getD i []))) rb_ary_new =
    .ary ((List.range strings.count.toNat).map
      (fun i => rb_str_new2 (strings.data.getD i []))) := by
  unfold rb_ary_new
  rw [foldl_rb_ary_push (fun i => rb_str_new2 (strings.data.getD i []))]
  simp

/-! ## C1 -/

/-- On a connected object, with arguments of the declared types and Fixnums in the range
of `int`: `ls`, `create` and `set` return their declared result exactly when the client
call returns `ZOK`, and so does `get` when the length the client leaves is not negative;
for every other code the result is the one error `check_errors` raises for that code,
and nothing read from the output buffers. -/
theorem operations_follow_check_errors {σ : Type} (C : ZooClient σ) (Z : ZooCodes)
    (w : World σ) (zk : zk_rb_data) (hd : w.data = some zk) (path value : Bytes)
    (flags version : Int) (hflo : INT_MIN ≤ flags) (hfhi : flags ≤ INT_MAX)
    (hvlo : INT_MIN ≤ version) (hvhi : version ≤ INT_MAX) :
    (((C.zoo_get_children w.zoo zk.zh path 0).rc = Z.ZOK →
        (method_ls C Z (.str path) w).result = .ok (.ary
          ((List.range (C.zoo_get_children w.zoo zk.zh path 0).strings.count.toNat).map
            (fun i => rb_str_new2
              ((C.zoo_get_children w.zoo zk.zh path 0).strings.data.getD i []))))) ∧
      (∀ v, (method_ls C Z (.str path) w).result = .ok v →
        (C.zoo_get_children w.zoo zk.zh path 0).rc = Z.ZOK) ∧
      ((C.zoo_get_children w.zoo zk.zh path 0).rc ≠ Z.ZOK →
        ∃ e, check_errors Z (C.zoo_get_children w.zoo zk.zh path 0).rc = .error e ∧
          (method_ls C Z (.str path) w).result = .error e)) ∧
    (((C.zoo_create w.zoo zk.zh path value value.length .OPEN_ACL_UNSAFE flags 10240).rc
          = Z.ZOK →
        (method_create C Z (.str path) (.str value) (.fixnum flags) w).result =
          .ok (.str (cstr
            (C.zoo_create w.zoo zk.zh path value value.length .OPEN_ACL_UNSAFE flags
              10240).realpath))) ∧
      (∀ v, (method_create C Z (.str path) (.str value) (.fixnum flags) w).result = .ok v →
        (C.zoo_create w.zoo zk.zh path value value.length .OPEN_ACL_UNSAFE flags 10240).rc
          = Z.ZOK) ∧
      ((C.zoo_create w.zoo zk.zh path value value.length .OPEN_ACL_UNSAFE flags 10240).rc
          ≠ Z.ZOK →
        ∃ e, check_errors Z
            (C.zoo_create w.zoo zk.zh path value value.length .OPEN_ACL_UNSAFE flags
              10240).rc = .error e ∧
          (method_create C Z (.str path) (.str value) (.fixnum flags) w).result = .error e)) ∧
    (((C.zoo_get w.zoo zk.zh path 0 1024).rc = Z.ZOK →
        0 ≤ (C.zoo_get w.zoo zk.zh path 0 1024).buffer_len →
        (method_get C Z (.str path) w).result =
          .ok (.ary [.str ((C.zoo_get w.zoo zk.zh path 0 1024).buffer.take
                (C.zoo_get w.zoo zk.zh path 0 1024).buffer_len.toNat),
              .fixnum (C.zoo_get w.zoo zk.zh path 0 1024).stat.version])) ∧
      (∀ v, (method_get C Z (.str path) w).result = .ok v →
        (C.zoo_get w.zoo zk.zh path 0 1024).rc = Z.ZOK) ∧
      ((C.zoo_get w.zoo zk.zh path 0 1024).rc ≠ Z.ZOK →
        ∃ e, check_errors Z (C.zoo_get w.zoo zk.zh path 0 1024).rc = .error e ∧
          (method_get C Z (.str path) w).result = .error e)) ∧
    (((C.zoo_set w.zoo zk.zh path value value.length version).rc = Z.ZOK →
        (method_set C Z (.str path) (.str value) (.fixnum version) w).result = .ok .Qnil) ∧
      (∀ v, (method_set C Z (.str path) (.str value) (.fixnum version) w).result = .ok v →
        (C.zoo_set w.zoo zk.zh path value value.length version).rc = Z.ZOK) ∧
      ((C.zoo_set w.zoo zk.zh path value value.length version).rc ≠ Z.ZOK →
        ∃ e, check_errors Z (C.zoo_set w.zoo zk.zh path value value.length version).rc
            = .error e ∧
          (method_set C Z (.str path) (.str value) (.fixnum version) w).result = .error e)) := by
  rw [method_ls_run C Z path w zk hd, method_create_run C Z path value flags w zk hd hflo hfhi,
    method_get_run C Z path w zk hd, method_set_run C Z path value version w zk hd hvlo hvhi]
  refine ⟨⟨?_, ?_, ?_⟩, ⟨?_, ?_, ?_⟩, ⟨?_, ?_, ?_⟩, ⟨?_, ?_, ?_⟩⟩
  · intro h
    show (check_errors Z _).map _ = _
    rw [check_errors_map_ok Z _ _ h, ls_output_eq]
  · intro v h; exact check_errors_map_ok_inv Z _ _ v h
  · intro h; exact check_errors_map_error Z _ _ h
  · intro h; exact check_errors_map_ok Z _ _ h
  · intro v h; exact check_errors_map_ok_inv Z _ _ v h
  · intro h; exact check_errors_map_error Z _ _ h
  · intro h hlen
    show (check_errors Z _).bind _ = _
    rw [check_errors_bind_ok Z _ _ h]
    simp [rb_str_new, not_lt.mpr hlen, Except.map, pure, Except.pure, rb_ary_push, rb_ary_new,
      INT2FIX]
  · intro v h; exact check_errors_bind_ok_inv Z _ _ v h
  · intro h; exact check_errors_bind_error Z _ _ h
  · intro h; exact check_errors_map_ok Z _ _ h
  · intro v h; exact check_errors_map_ok_inv Z _ _ v h
  · intro h; exact check_errors_map_error Z _ _ h

/-- With `ZOK` and a negative length left in `data_len`, `get` does not return: the
`rb_str_new` call raises `ArgumentError`, whatever the client and the path. -/
theorem method_get_negative_length {σ : Type} (C : ZooClient σ) (Z : ZooCodes) (w : World σ)
    (zk : zk_rb_data) (hd : w.data = some zk) (path : Bytes)
    (hrc : (C.zoo_get w.zoo zk.zh path 0 1024).rc = Z.ZOK)
    (hlen : (C.zoo_get w.zoo zk.zh path 0 1024).buffer_len < 0) :
    (method_get C Z (.str path) w).result =
      .error ⟨.rb_eArgError, "negative string size (or size too big)"⟩ := by
  rw [method_get_run C Z path w zk hd]
  show (check_errors Z _).bind _ = _
  rw [check_errors_bind_ok Z _ _ hrc]
  simp [rb_str_new, hlen, Except.map, rb_raise]

/-- C1 (the code at the failing input). The client call of `get` returns `ZOK`, for
which `check_errors` raises nothing, and leaves the length -1 of a node without data:
`get` makes its one call and then, instead of returning its pair, raises
`ArgumentError`, an error that `check_errors` did not choose. -/
theorem get_raises_on_null_data :
    (nullDataClient.zoo_get () 1 [47, 97] 0 1024).rc = zookeeper_h.ZOK ∧
    (nullDataClient.zoo_get () 1 [47, 97] 0 1024).buffer_len = -1 ∧
    check_errors zookeeper_h (nullDataClient.zoo_get () 1 [47, 97] 0 1024).rc = .ok () ∧
    (method_get nullDataClient zookeeper_h (.str [47, 97]) (connected ())).world.calls
      = [Call.zoo_get 1 [47, 97] 0 1024] ∧
    (method_get nullDataClient zookeeper_h (.str [47, 97]) (connected ())).result
      = .error ⟨.rb_eArgError, "negative string size (or size too big)"⟩ :=
  ⟨rfl, rfl, rfl, rfl,
    method_get_negative_length nullDataClient zookeeper_h (connected ())
      ⟨1, Data_Make_Struct_myid⟩ rfl [47, 97] rfl (by decide)⟩

/-! ## C2 -/

theorem rc_of_mesg_unknown (rc : Int) :
    rc_of_mesg ("unknown error returned from zookeeper: " ++ fmt_d rc) = rc := by
  unfold rc_of_mesg
  rw [String.data_append]
  have hl : "unknown error returned from zookeeper: ".length
      = "unknown error returned from zookeeper: ".data.length := rfl
  rw [hl, List.drop_left]
  exact scan_d_fmt_d rc

/-- C2. For a result code that is none of the thirteen named in `check_errors`, the
function does not return: it raises the generic `RuntimeError` whose message is the
fixed text followed by the code in decimal, from which the code is read back exactly. -/
theorem unknown_code_raises_generic_error (Z : ZooCodes) (rc : Int) (h : rc ∉ Z.labels) :
    check_errors Z rc =
      .error ⟨.rb_eRuntimeError, "unknown error returned from zookeeper: " ++ fmt_d rc⟩ ∧
    check_errors Z rc ≠ .ok () ∧
    rc_of_mesg ("unknown error returned from zookeeper: " ++ fmt_d rc) = rc := by
  refine ⟨check_errors_unknown Z rc h, ?_, rc_of_mesg_unknown rc⟩
  rw [check_errors_unknown Z rc h]
  intro hc; cases hc

/-- Witness for C2 at the code -6, which `check_errors` does not name. -/
theorem unknown_code_raises_generic_error_witness :
    (-6 : Int) ∉ zookeeper_h.labels ∧
    check_errors zookeeper_h (-6) =
      .error ⟨.rb_eRuntimeError, "unknown error returned from zookeeper: -6"⟩ ∧
    rc_of_mesg "unknown error returned from zookeeper: -6" = -6 :=
  have h := unknown_code_raises_generic_error zookeeper_h (-6) (by decide)
  ⟨by decide, h.1, h.2.2⟩

/-! ## C3 -/

/-- C3. When the client call returns `ZNONODE`, each of `get`, `ls` and `set` raises
`NoNodeError` (the class `eNoNode`) and nothing else, whatever the path; and `ZNONODE`
is the only code for which `check_errors` raises that class.  (`set` reaches the client
with a version in the range of `int`.) -/
theorem nonode_raises_NoNodeError {σ : Type} (C : ZooClient σ) (Z : ZooCodes)
    (hZ : Z.Distinct) (w : World σ) (zk : zk_rb_data) (hd : w.data = some zk)
    (path data : Bytes) (version : Int) :
    ((C.zoo_get w.zoo zk.zh path 0 1024).rc = Z.ZNONODE →
      (method_get C Z (.str path) w).result =
        .error ⟨.eNoNode, "the node does not exist"⟩) ∧
    ((C.zoo_get_children w.zoo zk.zh path 0).rc = Z.ZNONODE →
      (method_ls C Z (.str path) w).result =
        .error ⟨.eNoNode, "the node does not exist"⟩) ∧
    (INT_MIN ≤ version → version ≤ INT_MAX →
      (C.zoo_set w.zoo zk.zh path data data.length version).rc = Z.ZNONODE →
      (method_set C Z (.str path) (.str data) (.fixnum version) w).result =
        .error ⟨.eNoNode, "the node does not exist"⟩) ∧
    (∀ rc e, check_errors Z rc = .error e → e.klass = .eNoNode → rc = Z.ZNONODE) := by
  refine ⟨?_, ?_, ?_, fun rc e h hk => check_errors_eNoNode_only Z rc e h hk⟩
  · intro h
    rw [method_get_run C Z path w zk hd]
    show (check_errors Z _).bind _ = _
    rw [h, check_errors_ZNONODE Z hZ]; rfl
  · intro h
    rw [method_ls_run C Z path w zk hd]
    show (check_errors Z _).map _ = _
    rw [h, check_errors_ZNONODE Z hZ]; rfl
  · intro hlo hhi h
    rw [method_set_run C Z path data version w zk hd hlo hhi]
    show (check_errors Z _).map _ = _
    rw [h, check_errors_ZNONODE Z hZ]; rfl

/-- Witness for C3 on the empty stand-in store, where `/x` does not exist. -/
theorem nonode_raises_NoNodeError_witness :
    zookeeper_h.Distinct ∧
    (method_get (storeClient zookeeper_h) zookeeper_h (.str [47, 120])
        (connected ([] : Ensemble))).result
      = .error ⟨.eNoNode, "the node does not exist"⟩ ∧
    (method_ls (storeClient zookeeper_h) zookeeper_h (.str [47, 120])
        (connected ([] : Ensemble))).result
      = .error ⟨.eNoNode, "the node does not exist"⟩ ∧
    (method_set (storeClient zookeeper_h) zookeeper_h (.str [47, 120]) (.str [1])
        (.fixnum (-1)) (connected ([] : Ensemble))).result
      = .error ⟨.eNoNode, "the node does not exist"⟩ :=
  have h := nonode_raises_NoNodeError (storeClient zookeeper_h) zookeeper_h (by decide)
    (connected ([] : Ensemble)) ⟨1, Data_Make_Struct_myid⟩ rfl [47, 120] [1] (-1)
  ⟨by decide, h.1 rfl, h.2.1 rfl, h.2.2.1 (by decide) (by decide) rfl⟩

/-! ## C4 -/

/-- C4. For every path, data and expected version `v` in the range of `int` (the
sentinel -1 included), `set` makes exactly one `zoo_set` call, with the path, the data
(and its length) and `v` as given; when that call returns `ZBADVERSION` the method raises
`BadVersionError` (the class `eBadVersion`) with no further call; and `ZBADVERSION` is
the only code that raises that class. -/
theorem set_submits_one_request {σ : Type} (C : ZooClient σ) (Z : ZooCodes)
    (hZ : Z.Distinct) (w : World σ) (zk : zk_rb_data) (hd : w.data = some zk)
    (path data : Bytes) (v : Int) (hlo : INT_MIN ≤ v) (hhi : v ≤ INT_MAX) :
    (method_set C Z (.str path) (.str data) (.fixnum v) w).world.calls =
      w.calls ++ [Call.zoo_set zk.zh path data data.length v] ∧
    ((C.zoo_set w.zoo zk.zh path data data.length v).rc = Z.ZBADVERSION →
      (method_set C Z (.str path) (.str data) (.fixnum v) w).result =
        .error ⟨.eBadVersion, "expected version does not match actual version"⟩) ∧
    (∀ rc e, check_errors Z rc = .error e → e.klass = .eBadVersion → rc = Z.ZBADVERSION) := by
  rw [method_set_run C Z path data v w zk hd hlo hhi]
  refine ⟨rfl, ?_, fun rc e h hk => check_errors_eBadVersion_only Z rc e h hk⟩
  intro h
  show (check_errors Z _).map _ = _
  rw [h, check_errors_ZBADVERSION Z hZ]; rfl

/-- Witness for C4 on the stand-in store holding `/a` at version 3: a write expecting
version 0 is one request and raises `BadVersionError`; a write with the sentinel -1 is
one request carrying -1. -/
theorem set_submits_one_request_witness :
    zookeeper_h.Distinct ∧ INT_MIN ≤ 0 ∧ (0 : Int) ≤ INT_MAX ∧
    INT_MIN ≤ -1 ∧ (-1 : Int) ≤ INT_MAX ∧
    (method_set (storeClient zookeeper_h) zookeeper_h (.str [47, 97]) (.str [9]) (.fixnum 0)
        (connected [⟨[47, 97], [1], 3⟩])).world.calls
      = [Call.zoo_set 1 [47, 97] [9] 1 0] ∧
    (method_set (storeClient zookeeper_h) zookeeper_h (.str [47, 97]) (.str [9]) (.fixnum 0)
        (connected [⟨[47, 97], [1], 3⟩])).result
      = .error ⟨.eBadVersion, "expected version does not match actual version"⟩ ∧
    (method_set (storeClient zookeeper_h) zookeeper_h (.str [47, 97]) (.str [9])
        (.fixnum (-1)) (connected [⟨[47, 97], [1], 3⟩])).world.calls
      = [Call.zoo_set 1 [47, 97] [9] 1 (-1)] :=
  have h := set_submits_one_request (storeClient zookeeper_h) zookeeper_h (by decide)
    (connected [⟨[47, 97], [1], 3⟩]) ⟨1, Data_Make_Struct_myid⟩ rfl [47, 97] [9] 0
    (by decide) (by decide)
  have h1 := set_submits_one_request (storeClient zookeeper_h) zookeeper_h (by decide)
    (connected [⟨[47, 97], [1], 3⟩]) ⟨1, Data_Make_Struct_myid⟩ rfl [47, 97] [9] (-1)
    (by decide) (by decide)
  ⟨by decide, by decide, by decide, by decide, by decide, h.1, h.2.1 rfl, h1.1⟩

/-! ## C5 -/

theorem lookup_cons_self (n : Znode) (s : Ensemble) :
    Ensemble.lookup (n :: s) n.path = some n := by
  simp [Ensemble.lookup, List.find?_cons]

theorem take_memcpy_into (size : Nat) (src : Bytes) :
    (memcpy_into size src).take (src.take size).length = src.take size := by
  unfold memcpy_into
  rw [List.take_left]

/-- On the stand-in store, `create` of a path that did not exist stores the value under
the C string of the path and returns what fits the `realpath` buffer. -/
theorem storeClient_create_run (Z : ZooCodes) (w : World Ensemble) (zk : zk_rb_data)
    (hd : w.data = some zk) (path value : Bytes) (flags : Int)
    (hlo : INT_MIN ≤ flags) (hhi : flags ≤ INT_MAX)
    (hfresh : w.zoo.lookup (cstr path) = none) :
    method_create (storeClient Z) Z (.str path) (.str value) (.fixnum flags) w =
      ⟨⟨w.data, ⟨cstr path, value, 0⟩ :: w.zoo,
          w.calls ++ [Call.zoo_create zk.zh path value value.length .OPEN_ACL_UNSAFE flags
            10240]⟩,
       .ok (.str (cstr (strcpy_into 10240 (cstr path))))⟩ := by
  have hc : (storeClient Z).zoo_create w.zoo zk.zh path value value.length .OPEN_ACL_UNSAFE
      flags 10240 = ⟨⟨cstr path, value, 0⟩ :: w.zoo, Z.ZOK, strcpy_into 10240 (cstr path)⟩ := by
    simp [storeClient, hfresh]
  have hrun := method_create_run (storeClient Z) Z path value flags w zk hd hlo hhi
  rw [hc] at hrun
  rw [hrun]
  have hok : (check_errors Z Z.ZOK).map
      (fun _ => rb_str_new2 (strcpy_into 10240 (cstr path)))
      = .ok (.str (cstr (strcpy_into 10240 (cstr path)))) := by
    rw [check_errors_map_ok Z _ _ rfl]; rfl
  show Outcome.mk _ ((check_errors Z Z.ZOK).map _) = _
  rw [hok]

/-- On the stand-in store, `get` after a `create` of a path that did not exist returns
the first 1024 bytes of the value written, and version 0. -/
theorem storeClient_create_get (Z : ZooCodes) (w : World Ensemble) (zk : zk_rb_data)
    (hd : w.data = some zk) (path value : Bytes) (flags : Int)
    (hlo : INT_MIN ≤ flags) (hhi : flags ≤ INT_MAX)
    (hfresh : w.zoo.lookup (cstr path) = none) :
    (method_create (storeClient Z) Z (.str path) (.str value) (.fixnum flags) w).result
      = .ok (.str (cstr (strcpy_into 10240 (cstr path)))) ∧
    (method_get (storeClient Z) Z (.str path)
        (method_create (storeClient Z) Z (.str path) (.str value) (.fixnum flags) w).world).result
      = .ok (.ary [.str (value.take 1024), .fixnum 0]) := by
  rw [storeClient_create_run Z w zk hd path value flags hlo hhi hfresh]
  refine ⟨rfl, ?_⟩
  have hg : (storeClient Z).zoo_get (⟨cstr path, value, 0⟩ :: w.zoo) zk.zh path 0 1024 =
      ⟨⟨cstr path, value, 0⟩ :: w.zoo, Z.ZOK, memcpy_into 1024 value,
        (((value.take 1024).length : Nat) : Int), ⟨0⟩⟩ := by
    have hl := lookup_cons_self ⟨cstr path, value, 0⟩ w.zoo
    simp only [storeClient]
    rw [hl]
    rfl
  have hget := method_get_run (storeClient Z) Z path
    ⟨w.data, ⟨cstr path, value, 0⟩ :: w.zoo,
      w.calls ++ [Call.zoo_create zk.zh path value value.length .OPEN_ACL_UNSAFE flags 10240]⟩
    zk hd
  rw [hg] at hget
  show (method_get (storeClient Z) Z (.str path)
    ⟨w.data, ⟨cstr path, value, 0⟩ :: w.zoo,
      w.calls ++ [Call.zoo_create zk.zh path value value.length .OPEN_ACL_UNSAFE flags
        10240]⟩).result = _
  rw [hget]
  show (check_errors Z Z.ZOK).bind _ = _
  rw [check_errors_bind_ok Z _ _ rfl]
  have hn : ¬ ((((value.take 1024).length : Nat) : Int) < 0) := by omega
  simp only [rb_str_new, hn, if_false, Except.map, pure, Except.pure, rb_ary_push, rb_ary_new,
    INT2FIX, Int.toNat_ofNat, take_memcpy_into, List.nil_append, List.cons_append]

/-- On the stand-in store, for a value of at most 1024 bytes, `get` after a `create` of a
path that did not exist returns exactly the value written and version 0. -/
theorem storeClient_create_get_short (Z : ZooCodes) (w : World Ensemble) (zk : zk_rb_data)
    (hd : w.data = some zk) (path value : Bytes) (flags : Int)
    (hlo : INT_MIN ≤ flags) (hhi : flags ≤ INT_MAX)
    (hfresh : w.zoo.lookup (cstr path) = none) (hlen : value.length ≤ 1024) :
    (method_get (storeClient Z) Z (.str path)
        (method_create (storeClient Z) Z (.str path) (.str value) (.fixnum flags) w).world).result
      = .ok (.ary [.str value, .fixnum 0]) := by
  rw [(storeClient_create_get Z w zk hd path value flags hlo hhi hfresh).2,
    List.take_of_length_le hlen]

/-- C5 (the code at the failing input). On the empty stand-in store, `create` of `/a`
with a value of 1025 bytes succeeds and the following `get` of `/a` returns only 1024
of them: the pair returned is not the value written. -/
theorem get_truncates_value_to_1024 :
    (method_create (storeClient zookeeper_h) zookeeper_h (.str [47, 97])
        (.str (List.replicate 1025 120)) (.fixnum 0) (connected [])).result
      = .ok (.str [47, 97]) ∧
    (method_get (storeClient zookeeper_h) zookeeper_h (.str [47, 97])
        (method_create (storeClient zookeeper_h) zookeeper_h (.str [47, 97])
          (.str (List.replicate 1025 120)) (.fixnum 0) (connected [])).world).result
      = .ok (.ary [.str (List.replicate 1024 120), .fixnum 0]) ∧
    (method_get (storeClient zookeeper_h) zookeeper_h (.str [47, 97])
        (method_create (storeClient zookeeper_h) zookeeper_h (.str [47, 97])
          (.str (List.replicate 1025 120)) (.fixnum 0) (connected [])).world).result
      ≠ .ok (.ary [.str (List.replicate 1025 120), .fixnum 0]) := by
  have h := storeClient_create_get zookeeper_h (connected [])
    ⟨1, Data_Make_Struct_myid⟩ rfl [47, 97] (List.replicate 1025 120) 0
    (by decide) (by decide) rfl
  have ht : (List.replicate 1025 (120 : UInt8)).take 1024 = List.replicate 1024 120 := by
    rw [List.take_replicate]; rfl
  rw [ht] at h
  refine ⟨h.1.trans rfl, h.2, ?_⟩
  rw [h.2]
  intro hc
  have hl := congrArg (fun r => match r with
    | Except.ok (VALUE.ary (VALUE.str b :: _)) => b.length
    | _ => 0) hc
  simp only [List.length_replicate] at hl
  omega

/-! ## C6 -/

/-- When `zoo_create` returns `ZOK` and the `realpath` buffer holds the whole of a
NUL-terminated string, `create` returns that string, whatever the path argument was. -/
theorem create_returns_buffer_string {σ : Type} (C : ZooClient σ) (Z : ZooCodes)
    (w : World σ) (zk : zk_rb_data) (hd : w.data = some zk) (path value : Bytes) (flags : Int)
    (hlo : INT_MIN ≤ flags) (hhi : flags ≤ INT_MAX)
    (hrc : (C.zoo_create w.zoo zk.zh path value value.length .OPEN_ACL_UNSAFE flags 10240).rc
      = Z.ZOK)
    (actual rest : Bytes)
    (hbuf : (C.zoo_create w.zoo zk.zh path value value.length .OPEN_ACL_UNSAFE flags
      10240).realpath = actual ++ 0 :: rest)
    (hnul : (0 : UInt8) ∉ actual) :
    (method_create C Z (.str path) (.str value) (.fixnum flags) w).result
      = .ok (.str actual) := by
  rw [method_create_run C Z path value flags w zk hd hlo hhi]
  show (check_errors Z _).map _ = _
  rw [check_errors_map_ok Z _ _ hrc, hbuf, rb_str_new2, cstr_append_nul actual rest hnul]

theorem cstr_of_no_nul (s : Bytes) (h : (0 : UInt8) ∉ s) : cstr s = s := by
  induction s with
  | nil => rfl
  | cons a t ih =>
    have ha : a ≠ 0 := fun e => h (by simp [e])
    have ht : (0 : UInt8) ∉ t := fun m => h (List.mem_cons_of_mem _ m)
    have iht := ih ht
    simp only [cstr] at iht ⊢
    simp [List.takeWhile_cons, ha, iht]

theorem cstr_strcpy_into (size : Nat) (s : Bytes) (hsize : 0 < size) (h : (0 : UInt8) ∉ s) :
    cstr (strcpy_into size s) = s.take (size - 1) := by
  unfold strcpy_into
  have hlen : (s.take (size - 1)).length ≤ size - 1 := by
    rw [List.length_take]; exact Nat.min_le_left _ _
  have hk : size - (s.take (size - 1)).length
      = (size - 1 - (s.take (size - 1)).length) + 1 := by omega
  rw [hk, List.replicate_succ]
  exact cstr_append_nul _ _ (fun m => h (List.mem_of_mem_take m))

/-- On the stand-in store, a successful `create` of a path without NUL stores the node
under the whole path and returns the first 10239 bytes of it. -/
theorem storeClient_create_returns_take (Z : ZooCodes) (w : World Ensemble) (zk : zk_rb_data)
    (hd : w.data = some zk) (path value : Bytes) (flags : Int)
    (hlo : INT_MIN ≤ flags) (hhi : flags ≤ INT_MAX) (hnul : (0 : UInt8) ∉ path)
    (hfresh : w.zoo.lookup path = none) :
    (method_create (storeClient Z) Z (.str path) (.str value) (.fixnum flags) w).result
      = .ok (.str (path.take 10239)) ∧
    (method_create (storeClient Z) Z (.str path) (.str value) (.fixnum flags) w).world.zoo
      = ⟨path, value, 0⟩ :: w.zoo := by
  have hp := cstr_of_no_nul path hnul
  have hf : w.zoo.lookup (cstr path) = none := by rw [hp]; exact hfresh
  rw [storeClient_create_run Z w zk hd path value flags hlo hhi hf, hp,
    cstr_strcpy_into 10240 path (by decide) hnul]
  exact ⟨rfl, rfl⟩

/-- C6 (the code at the failing input). On the empty stand-in store, `create` of a path
of 10240 bytes (`/` and 10239 times `a`) succeeds and the node is stored under that
path, but the string returned has only the 10239 bytes that fit `char realpath[10240]`
before the NUL: it is not the path the server assigned. -/
theorem create_cuts_long_path :
    (method_create (storeClient zookeeper_h) zookeeper_h
        (.str (47 :: List.replicate 10239 97)) (.str [1]) (.fixnum 0) (connected [])).world.zoo
      = [⟨47 :: List.replicate 10239 97, [1], 0⟩] ∧
    (method_create (storeClient zookeeper_h) zookeeper_h
        (.str (47 :: List.replicate 10239 97)) (.str [1]) (.fixnum 0) (connected [])).result
      = .ok (.str (47 :: List.replicate 10238 97)) ∧
    (method_create (storeClient zookeeper_h) zookeeper_h
        (.str (47 :: List.replicate 10239 97)) (.str [1]) (.fixnum 0) (connected [])).result
      ≠ .ok (.str (47 :: List.replicate 10239 97)) := by
  have hnul : (0 : UInt8) ∉ 47 :: List.replicate 10239 97 := by
    simp only [List.mem_cons, List.mem_replicate, not_or, not_and]
    exact ⟨by decide, fun _ => by decide⟩
  have h := storeClient_create_returns_take zookeeper_h (connected [])
    ⟨1, Data_Make_Struct_myid⟩ rfl (47 :: List.replicate 10239 97) [1] 0
    (by decide) (by decide) hnul rfl
  have ht : (47 :: List.replicate 10239 (97 : UInt8)).take 10239
      = 47 :: List.replicate 10238 97 := by
    show (47 :: List.replicate 10239 (97 : UInt8)).take (10238 + 1) = _
    rw [List.take_succ_cons, List.take_replicate]
    rfl
  rw [ht] at h
  refine ⟨h.2, h.1, ?_⟩
  rw [h.1]
  intro hc
  have hl := congrArg (fun r => match r with
    | Except.ok (VALUE.str b) => b.length
    | _ => 0) hc
  simp only [List.length_cons, List.length_replicate] at hl
  omega

/-! ## C7 -/

/-- C7. When `zoo_get_children` returns `ZOK` with a vector whose `count` is the
number of entries of `data`, `ls` returns an array with exactly `count` elements, the
i-th being the i-th child name: the children as the client gave them, in its order. -/
theorem ls_returns_children {σ : Type} (C : ZooClient σ) (Z : ZooCodes) (w : World σ)
    (zk : zk_rb_data) (hd : w.data = some zk) (path : Bytes)
    (hrc : (C.zoo_get_children w.zoo zk.zh path 0).rc = Z.ZOK)
    (hcount : (C.zoo_get_children w.zoo zk.zh path 0).strings.count
      = ((C.zoo_get_children w.zoo zk.zh path 0).strings.data.length : Int)) :
    ∃ elems : List VALUE,
      (method_ls C Z (.str path) w).result = .ok (.ary elems) ∧
      (elems.length : Int) = (C.zoo_get_children w.zoo zk.zh path 0).strings.count ∧
      (∀ i : Nat, elems[i]? =
        ((C.zoo_get_children w.zoo zk.zh path 0).strings.data[i]?).map
          (fun child => VALUE.str (cstr child))) ∧
      elems = (C.zoo_get_children w.zoo zk.zh path 0).strings.data.map
        (fun child => VALUE.str (cstr child)) := by
  refine ⟨_, ?_, ?_, ?_, rfl⟩
  · rw [method_ls_run C Z path w zk hd]
    show (check_errors Z _).map _ = _
    rw [check_errors_map_ok Z _ _ hrc, ls_output_eq, hcount, Int.toNat_ofNat,
      range_map_getD _ rb_str_new2]
    rfl
  · rw [hcount, List.length_map]
  · intro i
    rw [List.getElem?_map]

/-- Witness for C7: on the stand-in store holding `/`, `/a` and `/b`, `ls` of `/` returns
exactly `a` and `b`. -/
theorem ls_returns_children_witness :
    ((storeClient zookeeper_h).zoo_get_children
        [⟨[47, 98], [], 0⟩, ⟨[47, 97], [], 0⟩, ⟨[47], [], 0⟩] 1 [47] 0).rc = zookeeper_h.ZOK ∧
    ((storeClient zookeeper_h).zoo_get_children
        [⟨[47, 98], [], 0⟩, ⟨[47, 97], [], 0⟩, ⟨[47], [], 0⟩] 1 [47] 0).strings.count = 2 ∧
    (method_ls (storeClient zookeeper_h) zookeeper_h (.str [47])
        (connected [⟨[47, 98], [], 0⟩, ⟨[47, 97], [], 0⟩, ⟨[47], [], 0⟩])).result
      = .ok (.ary [.str [97], .str [98]]) := by
  obtain ⟨elems, h1, _, _, h4⟩ := ls_returns_children (storeClient zookeeper_h) zookeeper_h
    (connected [⟨[47, 98], [], 0⟩, ⟨[47, 97], [], 0⟩, ⟨[47], [], 0⟩])
    ⟨1, Data_Make_Struct_myid⟩ rfl [47] rfl rfl
  refine ⟨rfl, rfl, ?_⟩
  rw [h1, h4]
  rfl

/-! ## C8 -/

/-- C8, as stated, fails: `ls` of the empty string and of the relative path `a` both
reach `zoo_get_children`, and what follows is the client's answer (a `NoNodeError` from
the stand-in store, a normal return from a client that answers `ZOK`). -/
theorem ls_calls_client_on_malformed_path :
    (method_ls (storeClient zookeeper_h) zookeeper_h (.str [])
        (connected ([⟨[47], [], 0⟩] : Ensemble))).world.calls
      = [Call.zoo_get_children 1 [] 0] ∧
    (method_ls (storeClient zookeeper_h) zookeeper_h (.str [])
        (connected ([⟨[47], [], 0⟩] : Ensemble))).result
      = .error ⟨.eNoNode, "the node does not exist"⟩ ∧
    (method_ls okClient zookeeper_h (.str [97]) (connected ())).world.calls
      = [Call.zoo_get_children 1 [97] 0] ∧
    (method_ls okClient zookeeper_h (.str [97]) (connected ())).result
      = .ok (.ary [.str [97], .str [98]]) :=
  ⟨rfl, rfl, rfl, rfl⟩

/-- C8, amended. For every path string, well-formed or not, `ls` on a connected object
makes exactly one `zoo_get_children` call with the path as given, and it fails exactly
when that call returns a code other than `ZOK`, with the error `check_errors` raises. -/
theorem ls_passes_every_path_to_client {σ : Type} (C : ZooClient σ) (Z : ZooCodes)
    (w : World σ) (zk : zk_rb_data) (hd : w.data = some zk) (path : Bytes) :
    (method_ls C Z (.str path) w).world.calls
      = w.calls ++ [Call.zoo_get_children zk.zh path 0] ∧
    ((∃ e, (method_ls C Z (.str path) w).result = .error e) ↔
      (C.zoo_get_children w.zoo zk.zh path 0).rc ≠ Z.ZOK) ∧
    (∀ e, (method_ls C Z (.str path) w).result = .error e →
      check_errors Z (C.zoo_get_children w.zoo zk.zh path 0).rc = .error e) := by
  rw [method_ls_run C Z path w zk hd]
  refine ⟨rfl, ⟨?_, ?_⟩, ?_⟩
  · rintro ⟨e, he⟩ h
    have he2 : (check_errors Z _).map _ = Except.error e := he
    rw [check_errors_map_ok Z _ _ h] at he2
    cases he2
  · intro h
    obtain ⟨e, _, he⟩ := check_errors_map_error Z _
      (fun _ => (List.range (C.zoo_get_children w.zoo zk.zh path 0).strings.count.toNat).foldl
        (fun output i => rb_ary_push output
          (rb_str_new2 ((C.zoo_get_children w.zoo zk.zh path 0).strings.data.getD i [])))
        rb_ary_new) h
    exact ⟨e, he⟩
  · intro e he
    have he2 : (check_errors Z (C.zoo_get_children w.zoo zk.zh path 0).rc).map _
      = Except.error e := he
    cases hc : check_errors Z (C.zoo_get_children w.zoo zk.zh path 0).rc with
    | error e2 => rw [hc] at he2; cases he2; rfl
    | ok u => rw [hc] at he2; cases he2

/-- Witness for C8 amended: the empty path on the stand-in store. -/
theorem ls_passes_every_path_to_client_witness :
    (connected ([⟨[47], [], 0⟩] : Ensemble)).data = some ⟨1, Data_Make_Struct_myid⟩ ∧
    (method_ls (storeClient zookeeper_h) zookeeper_h (.str [])
        (connected ([⟨[47], [], 0⟩] : Ensemble))).world.calls
      = [Call.zoo_get_children 1 [] 0] :=
  ⟨rfl, (ls_passes_every_path_to_client (storeClient zookeeper_h) zookeeper_h
    (connected ([⟨[47], [], 0⟩] : Ensemble)) ⟨1, Data_Make_Struct_myid⟩ rfl []).1⟩

/-! ## C9 -/

/-- C9, as stated, fails: with the header's values, the class raised for `ZNODEEXISTS`
(-110), for `ZNOCHILDRENFOREPHEMERALS` (-108), for `ZINVALIDACL` (-114) and for the
unnamed code -6 is one and the same, `rb_eRuntimeError`. -/
theorem node_exists_kind_not_distinct :
    kind_raised zookeeper_h zookeeper_h.ZNODEEXISTS = some .rb_eRuntimeError ∧
    kind_raised zookeeper_h zookeeper_h.ZNOCHILDRENFOREPHEMERALS = some .rb_eRuntimeError ∧
    kind_raised zookeeper_h zookeeper_h.ZINVALIDACL = some .rb_eRuntimeError ∧
    (-6 : Int) ∉ zookeeper_h.labels ∧
    kind_raised zookeeper_h (-6) = some .rb_eRuntimeError ∧
    ¬ (kind_raised zookeeper_h zookeeper_h.ZNODEEXISTS
        ≠ kind_raised zookeeper_h zookeeper_h.ZINVALIDACL) := by
  decide

theorem unknown_mesg_head (rc : Int) :
    ("unknown error returned from zookeeper: " ++ fmt_d rc).data.head? = some 'u' := by
  rw [String.data_append]
  rfl

/-- The message of the default branch is none of the fixed texts that start with
another letter than `u`. -/
theorem unknown_mesg_ne (rc : Int) (t : String) (ht : t.data.head? ≠ some 'u') :
    "unknown error returned from zookeeper: " ++ fmt_d rc ≠ t := by
  intro h
  have h2 : ("unknown error returned from zookeeper: " ++ fmt_d rc).data.head?
      = t.data.head? := by rw [h]
  rw [unknown_mesg_head] at h2
  exact ht h2.symm

/-- The text `the node already exists` is raised for `ZNODEEXISTS` only. -/
theorem mesg_node_exists_only (Z : ZooCodes) (rc : Int) (e : RbError)
    (h : check_errors Z rc = .error e) (hm : e.mesg = "the node already exists") :
    rc = Z.ZNODEEXISTS := by
  rcases check_errors_error_cases Z rc e h with
    ⟨_, he⟩ | ⟨_, he⟩ | ⟨_, he⟩ | ⟨_, he⟩ | ⟨_, he⟩ | ⟨_, he⟩ | ⟨_, he⟩ | ⟨_, he⟩ | ⟨_, he⟩ |
    ⟨hrc, _⟩ | ⟨_, he⟩ | ⟨_, he⟩ | he
  case inr.inr.inr.inr.inr.inr.inr.inr.inr.inl => exact hrc
  case inr.inr.inr.inr.inr.inr.inr.inr.inr.inr.inr.inr =>
    rw [he] at hm
    exact absurd hm (unknown_mesg_ne rc _ (by decide))
  all_goals (rw [he] at hm; exact absurd hm (by decide))

/-- The text `cannot create children of ephemeral nodes` is raised for
`ZNOCHILDRENFOREPHEMERALS` only. -/
theorem mesg_no_children_only (Z : ZooCodes) (rc : Int) (e : RbError)
    (h : check_errors Z rc = .error e)
    (hm : e.mesg = "cannot create children of ephemeral nodes") :
    rc = Z.ZNOCHILDRENFOREPHEMERALS := by
  rcases check_errors_error_cases Z rc e h with
    ⟨_, he⟩ | ⟨_, he⟩ | ⟨_, he⟩ | ⟨_, he⟩ | ⟨_, he⟩ | ⟨_, he⟩ | ⟨_, he⟩ | ⟨_, he⟩ | ⟨_, he⟩ |
    ⟨_, he⟩ | ⟨hrc, _⟩ | ⟨_, he⟩ | he
  case inr.inr.inr.inr.inr.inr.inr.inr.inr.inr.inl => exact hrc
  case inr.inr.inr.inr.inr.inr.inr.inr.inr.inr.inr.inr =>
    rw [he] at hm
    exact absurd hm (unknown_mesg_ne rc _ (by decide))
  all_goals (rw [he] at hm; exact absurd hm (by decide))

/-- The text `invalid ACL specified` is raised for `ZINVALIDACL` only. -/
theorem mesg_invalid_acl_only (Z : ZooCodes) (rc : Int) (e : RbError)
    (h : check_errors Z rc = .error e) (hm : e.mesg = "invalid ACL specified") :
    rc = Z.ZINVALIDACL := by
  rcases check_errors_error_cases Z rc e h with
    ⟨_, he⟩ | ⟨_, he⟩ | ⟨_, he⟩ | ⟨_, he⟩ | ⟨_, he⟩ | ⟨_, he⟩ | ⟨_, he⟩ | ⟨_, he⟩ | ⟨_, he⟩ |
    ⟨_, he⟩ | ⟨_, he⟩ | ⟨hrc, _⟩ | he
  case inr.inr.inr.inr.inr.inr.inr.inr.inr.inr.inr.inl => exact hrc
  case inr.inr.inr.inr.inr.inr.inr.inr.inr.inr.inr.inr =>
    rw [he] at hm
    exact absurd hm (unknown_mesg_ne rc _ (by decide))
  all_goals (rw [he] at hm; exact absurd hm (by decide))

/-- C9, amended. `check_errors` raises the generic `rb_eRuntimeError` for `ZNODEEXISTS`,
`ZNOCHILDRENFOREPHEMERALS` and `ZINVALIDACL`, as it does for every code it does not
name; the three differ from one another by message only, and each of the three texts
is raised for its own code alone, so none is the message of an unrecognized code (nor of
any other code); the class differs from the two classes the extension defines,
`eNoNode` (raised for `ZNONODE`) and `eBadVersion` (raised for `ZBADVERSION`). -/
theorem node_errors_are_runtime_errors (Z : ZooCodes) (hZ : Z.Distinct) :
    check_errors Z Z.ZNODEEXISTS = .error ⟨.rb_eRuntimeError, "the node already exists"⟩ ∧
    check_errors Z Z.ZNOCHILDRENFOREPHEMERALS =
      .error ⟨.rb_eRuntimeError, "cannot create children of ephemeral nodes"⟩ ∧
    check_errors Z Z.ZINVALIDACL = .error ⟨.rb_eRuntimeError, "invalid ACL specified"⟩ ∧
    (∀ rc, rc ∉ Z.labels → kind_raised Z rc = some .rb_eRuntimeError) ∧
    ("the node already exists" ≠ "cannot create children of ephemeral nodes" ∧
      "the node already exists" ≠ "invalid ACL specified" ∧
      "cannot create children of ephemeral nodes" ≠ "invalid ACL specified") ∧
    kind_raised Z Z.ZNONODE = some .eNoNode ∧
    kind_raised Z Z.ZBADVERSION = some .eBadVersion ∧
    RbClass.rb_eRuntimeError ≠ RbClass.eNoNode ∧
    RbClass.rb_eRuntimeError ≠ RbClass.eBadVersion ∧
    Init_c_zookeeper.1 =
      [(.Zookeeper, "CZookeeper"), (.eNoNode, "NoNodeError"),
       (.eBadVersion, "BadVersionError")] ∧
    (∀ rc, rc ∉ Z.labels → ∀ e, check_errors Z rc = .error e →
      e.mesg ≠ "the node already exists" ∧
      e.mesg ≠ "cannot create children of ephemeral nodes" ∧
      e.mesg ≠ "invalid ACL specified") ∧
    (∀ rc e, check_errors Z rc = .error e →
      (e.mesg = "the node already exists" → rc = Z.ZNODEEXISTS) ∧
      (e.mesg = "cannot create children of ephemeral nodes" →
        rc = Z.ZNOCHILDRENFOREPHEMERALS) ∧
      (e.mesg = "invalid ACL specified" → rc = Z.ZINVALIDACL)) := by
  refine ⟨check_errors_ZNODEEXISTS Z hZ, check_errors_ZNOCHILDRENFOREPHEMERALS Z hZ,
    check_errors_ZINVALIDACL Z hZ, ?_, by decide, ?_, ?_, by decide, by decide, rfl, ?_, ?_⟩
  · intro rc h
    unfold kind_raised
    rw [check_errors_unknown Z rc h]
  · unfold kind_raised
    rw [check_errors_ZNONODE Z hZ]
  · unfold kind_raised
    rw [check_errors_ZBADVERSION Z hZ]
  · intro rc hrc e he
    rw [check_errors_unknown Z rc hrc] at he
    cases he
    exact ⟨unknown_mesg_ne rc _ (by decide), unknown_mesg_ne rc _ (by decide),
      unknown_mesg_ne rc _ (by decide)⟩
  · intro rc e he
    exact ⟨mesg_node_exists_only Z rc e he, mesg_no_children_only Z rc e he,
      mesg_invalid_acl_only Z rc e he⟩

/-- Witness for C9 amended, at the values of the header. -/
theorem node_errors_are_runtime_errors_witness :
    zookeeper_h.Distinct ∧
    check_errors zookeeper_h (-110) = .error ⟨.rb_eRuntimeError, "the node already exists"⟩ ∧
    check_errors zookeeper_h (-114) = .error ⟨.rb_eRuntimeError, "invalid ACL specified"⟩ :=
  have h := node_errors_are_runtime_errors zookeeper_h (by decide)
  ⟨by decide, h.1, h.2.2.1⟩

/-! ## C10 -/

/-- C10, as stated, fails: the constructor has no parser of its own, so with a client
library that hands out a handle for the empty specification it stores that handle and
returns `nil`. -/
theorem initialize_accepts_empty_specification :
    ( method_initialize (storeClient zookeeper_h) (.str []) (fresh ([] : Ensemble))).result
      = .ok .Qnil ∧
    ( method_initialize (storeClient zookeeper_h) (.str []) (fresh ([] : Ensemble))).world.data
      = some ⟨1, Data_Make_Struct_myid⟩ :=
  ⟨rfl, rfl⟩

/-- C10, amended. Given a string, the constructor calls `zoo_set_debug_level`, then
`zoo_deterministic_conn_order(1)`, then `zookeeper_init` with the string as given and
a timeout of 10000; it raises (a `RuntimeError` carrying `errno`) exactly when
`zookeeper_init` yields no handle, and then leaves `@data` as it was; otherwise it
stores the handle in `@data` and returns `nil`. -/
theorem initialize_fails_iff_no_handle {σ : Type} (C : ZooClient σ) (hostPort : Bytes)
    (w : World σ) :
    ( method_initialize C (.str hostPort) w).world.calls =
      w.calls ++ [Call.zoo_set_debug_level .LOG_LEVEL_DEBUG,
        Call.zoo_deterministic_conn_order 1,
        Call.zookeeper_init hostPort 10000 Data_Make_Struct_myid 0] ∧
    ((∃ e, ( method_initialize C (.str hostPort) w).result = .error e) ↔
      (C.zookeeper_init
        (C.zoo_deterministic_conn_order (C.zoo_set_debug_level w.zoo .LOG_LEVEL_DEBUG) 1)
        hostPort 10000 Data_Make_Struct_myid 0).zh = none) ∧
    ((C.zookeeper_init
        (C.zoo_deterministic_conn_order (C.zoo_set_debug_level w.zoo .LOG_LEVEL_DEBUG) 1)
        hostPort 10000 Data_Make_Struct_myid 0).zh = none →
      ( method_initialize C (.str hostPort) w).result =
        .error ⟨.rb_eRuntimeError, "error connecting to zookeeper: " ++
          fmt_d (C.zookeeper_init
            (C.zoo_deterministic_conn_order (C.zoo_set_debug_level w.zoo .LOG_LEVEL_DEBUG) 1)
            hostPort 10000 Data_Make_Struct_myid 0).errno⟩ ∧
      ( method_initialize C (.str hostPort) w).world.data = w.data) ∧
    (∀ zh, (C.zookeeper_init
        (C.zoo_deterministic_conn_order (C.zoo_set_debug_level w.zoo .LOG_LEVEL_DEBUG) 1)
        hostPort 10000 Data_Make_Struct_myid 0).zh = some zh →
      ( method_initialize C (.str hostPort) w).result = .ok .Qnil ∧
      ( method_initialize C (.str hostPort) w).world.data
        = some ⟨zh, Data_Make_Struct_myid⟩) := by
  rw [method_initialize_run C hostPort w]
  refine ⟨rfl, ⟨?_, ?_⟩, ?_, ?_⟩
  · rintro ⟨e, he⟩
    cases hz : (C.zookeeper_init
        (C.zoo_deterministic_conn_order (C.zoo_set_debug_level w.zoo .LOG_LEVEL_DEBUG) 1)
        hostPort 10000 Data_Make_Struct_myid 0).zh with
    | none => rfl
    | some zh => simp only [hz] at he; cases he
  · intro hz
    simp only [hz]
    exact ⟨_, rfl⟩
  · intro hz
    rw [hz]
    exact ⟨rfl, rfl⟩
  · intro zh hz
    rw [hz]
    exact ⟨rfl, rfl⟩

end ZookeeperRuby
